import Mathlib

/-!
# Verification of the tge-g3n GPU state cache (`gls`) and renderer (`renderer`)

Shallow embedding of the two core source files of the repository:

* package `gls` (GLS state cache): the `GLS` struct, its `reset`, the cached
  state setters (`Enable`, `Disable`, `BlendEquation`, `BlendEquationSeparate`,
  `BlendFunc`, `BlendFuncSeparate`, `DepthFunc`, `DepthMask`, `FrontFace`,
  `ActiveTexture`, `LineWidth`, `PolygonMode`, `PolygonOffset`, `Viewport`),
  resource creation/deletion, draw/uniform calls, `UseProgram` and the
  `Stats` snapshot.
* package `renderer`: `Renderer.Render` / `renderScene` — node classification,
  opaque/transparent bucketing, z-sorting, "other" node hooks, the clear
  decision and error propagation from shader resolution.

Modelling conventions:
* Go `uint32` enum values are modelled as `Nat`, Go `int` counters as `Int`
  (they may go negative through unguarded deletes), Go `uint64` cumulative
  counters as `Nat` (idealized unbounded counters).
* Go `float32` state values (`lineWidth`, polygon offset factors, view-space
  Z coordinates) are modelled as `Int`: the code only ever compares them with
  `==` against previously stored values, so any type with decidable equality
  is faithful on the non-NaN fragment.
* The underlying driver (`tge-gl`) is side-effect-only: each wrapper returns
  the list of driver calls it issued (`List GLCall`) next to the new state.
* The Go `map[int]int` capability map (zero value `0 = capUndef` for missing
  keys) is an association list with default-`0` lookup; `map[*Program]bool`
  is a list of `Program` values whose `pid` field models pointer identity.
-/

namespace gls

/-- Driver calls issued by the state cache to the underlying `gl` package.
One constructor per `gl.*` entry point exercised by the modelled methods. -/
inductive GLCall where
  | enable (cap : Int)
  | disable (cap : Int)
  | activeTexture (texture : Nat)
  | blendEquation (mode : Nat)
  | blendEquationSeparate (modeRGB modeAlpha : Nat)
  | blendFunc (sfactor dfactor : Nat)
  | blendFuncSeparate (srcRGB dstRGB srcAlpha dstAlpha : Nat)
  | depthFunc (mode : Nat)
  | depthMask (flag : Bool)
  | frontFace (mode : Nat)
  | lineWidth (width : Int)
  | polygonMode (face mode : Nat)
  | polygonOffset (factor units : Int)
  | viewport (x y width height : Int)
  | cullFace (mode : Nat)
  | clear (mask : Nat)
  | bindBuffer (target : Int) (vbo : Nat)
  | bindTexture (target : Int) (tex : Nat)
  | bindVertexArray (vao : Nat)
  | useProgram (handle : Nat)
  | drawArrays (mode : Nat) (first count : Int)
  | drawElements (mode : Nat) (count : Int) (itype : Nat) (start : Nat)
  | uniform1i (location v0 : Int)
  | uniform1f (location : Int) (v0 : Int)
  | uniform4f (location : Int) (v0 v1 v2 v3 : Int)
  | uniformMatrix4fv (location : Int) (count : Int)
  | createBuffer
  | createTexture
  | createVertexArray
  | createProgram
  | createShader (stype : Nat)
  | deleteBuffer (buf : Nat)
  | deleteTexture (tex : Nat)
  | deleteVertexArray (vao : Nat)
  | deleteShader (shader : Nat)
  | deleteProgram (program : Nat)
deriving DecidableEq, Repr

/-- `Stats` of package `gls`: resource counters and cumulative call counters. -/
structure Stats where
  Shaders : Int
  Vaos : Int
  Buffers : Int
  Textures : Int
  Caphits : Nat
  UnilocHits : Nat
  UnilocMiss : Nat
  Unisets : Nat
  Drawcalls : Nat
deriving DecidableEq, Repr

/-- `gls.Program`: `handle` is the GL handle; `pid` models the Go pointer
identity under which a `*Program` is used as a `map[*Program]bool` key. -/
structure Program where
  pid : Nat
  handle : Nat
deriving DecidableEq, Repr

/-- Constants from the `gls` package. -/
def capUndef : Int := 0

def capDisabled : Int := 1

def capEnabled : Int := 2

/-- `uintUndef = math.MaxUint16`. -/
def uintUndef : Nat := 65535

def intFalse : Nat := 0

def intTrue : Nat := 1

/-- Association-list lookup with the Go map zero-value default. -/
def lookupD (l : List (Int × Int)) (k : Int) (d : Int) : Int :=
  match l.find? (fun p => p.1 = k) with
  | some p => p.2
  | none => d

/-- Association-list update (Go map assignment). -/
def insertA (l : List (Int × Int)) (k : Int) (v : Int) : List (Int × Int) :=
  match l with
  | [] => [(k, v)]
  | p :: rest => if p.1 = k then (k, v) :: rest else p :: insertA rest k v

/-- The `GLS` struct: cached last-set driver state plus statistics.
(`checkErrors` is omitted: it only toggles error polling in the bindings.) -/
structure GLS where
  stats : Stats
  prog : Option Program
  programs : List Program
  activeTexture : Nat
  viewportX : Int
  viewportY : Int
  viewportWidth : Int
  viewportHeight : Int
  lineWidth : Int
  sideView : Nat
  frontFace : Nat
  depthFunc : Nat
  depthMask : Nat
  capabilities : List (Int × Int)
  blendEquation : Nat
  blendSrc : Nat
  blendDst : Nat
  blendEquationRGB : Nat
  blendEquationAlpha : Nat
  blendSrcRGB : Nat
  blendSrcAlpha : Nat
  blendDstRGB : Nat
  blendDstAlpha : Nat
  polygonModeFace : Nat
  polygonModeMode : Nat
  polygonOffsetFactor : Int
  polygonOffsetUnits : Int
deriving DecidableEq, Repr

/-- `reset` of the `gls` package, line for line: statistics are untouched. -/
def GLS.reset (gs : GLS) : GLS :=
  { gs with
    lineWidth := 0
    sideView := uintUndef
    frontFace := 0
    depthFunc := 0
    depthMask := uintUndef
    capabilities := []
    programs := []
    prog := none
    activeTexture := uintUndef
    blendEquation := uintUndef
    blendSrc := uintUndef
    blendDst := uintUndef
    blendEquationRGB := 0
    blendEquationAlpha := 0
    blendSrcRGB := uintUndef
    blendSrcAlpha := uintUndef
    blendDstRGB := uintUndef
    blendDstAlpha := uintUndef
    polygonModeFace := 0
    polygonModeMode := 0
    polygonOffsetFactor := -1
    polygonOffsetUnits := -1 }

/-- All-zero statistics record (Go zero value of `Stats`). -/
def zeroStats : Stats :=
  { Shaders := 0, Vaos := 0, Buffers := 0, Textures := 0, Caphits := 0
    UnilocHits := 0, UnilocMiss := 0, Unisets := 0, Drawcalls := 0 }

/-- The state of a `GLS` right after `gs := new(GLS); gs.reset()` inside
`New` — i.e. immediately after cache construction, before `setDefaultState`
replays the default state through the setters. -/
def initialGLS : GLS :=
  GLS.reset
    { stats := zeroStats, prog := none, programs := []
      activeTexture := 0, viewportX := 0, viewportY := 0
      viewportWidth := 0, viewportHeight := 0, lineWidth := 0
      sideView := 0, frontFace := 0, depthFunc := 0, depthMask := 0
      capabilities := [], blendEquation := 0, blendSrc := 0, blendDst := 0
      blendEquationRGB := 0, blendEquationAlpha := 0, blendSrcRGB := 0
      blendSrcAlpha := 0, blendDstRGB := 0, blendDstAlpha := 0
      polygonModeFace := 0, polygonModeMode := 0
      polygonOffsetFactor := 0, polygonOffsetUnits := 0 }

/-- `Stats` method of `GLS`: copies the counters, overriding `Shaders` with
the size of the known-programs map. -/
def GLS.Stats (gs : GLS) : Stats :=
  { gs.stats with Shaders := (gs.programs.length : Int) }

/-- `ActiveTexture`: elided when the cached unit equals the argument. -/
def GLS.ActiveTexture (gs : GLS) (texture : Nat) : List GLCall × GLS :=
  if gs.activeTexture = texture then ([], gs)
  else ([GLCall.activeTexture texture], { gs with activeTexture := texture })

/-- `BlendEquation`: elided when the cached mode equals the argument. -/
def GLS.BlendEquation (gs : GLS) (mode : Nat) : List GLCall × GLS :=
  if gs.blendEquation = mode then ([], gs)
  else ([GLCall.blendEquation mode], { gs with blendEquation := mode })

/-- `BlendEquationSeparate`: elided when both cached modes match. -/
def GLS.BlendEquationSeparate (gs : GLS) (modeRGB modeAlpha : Nat) :
    List GLCall × GLS :=
  if gs.blendEquationRGB = modeRGB ∧ gs.blendEquationAlpha = modeAlpha then
    ([], gs)
  else
    ([GLCall.blendEquationSeparate modeRGB modeAlpha],
      { gs with blendEquationRGB := modeRGB, blendEquationAlpha := modeAlpha })

/-- `BlendFunc`: elided when both cached factors match. -/
def GLS.BlendFunc (gs : GLS) (sfactor dfactor : Nat) : List GLCall × GLS :=
  if gs.blendSrc = sfactor ∧ gs.blendDst = dfactor then ([], gs)
  else
    ([GLCall.blendFunc sfactor dfactor],
      { gs with blendSrc := sfactor, blendDst := dfactor })

/-- `BlendFuncSeparate`: elided when all four cached factors match. -/
def GLS.BlendFuncSeparate (gs : GLS) (srcRGB dstRGB srcAlpha dstAlpha : Nat) :
    List GLCall × GLS :=
  if gs.blendSrcRGB = srcRGB ∧ gs.blendDstRGB = dstRGB ∧
      gs.blendSrcAlpha = srcAlpha ∧ gs.blendDstAlpha = dstAlpha then ([], gs)
  else
    ([GLCall.blendFuncSeparate srcRGB dstRGB srcAlpha dstAlpha],
      { gs with blendSrcRGB := srcRGB, blendDstRGB := dstRGB,
                blendSrcAlpha := srcAlpha, blendDstAlpha := dstAlpha })

/-- `DepthFunc`: elided when the cached function equals the argument. -/
def GLS.DepthFunc (gs : GLS) (mode : Nat) : List GLCall × GLS :=
  if gs.depthFunc = mode then ([], gs)
  else ([GLCall.depthFunc mode], { gs with depthFunc := mode })

/-- `DepthMask`: boolean flag cached through `intTrue`/`intFalse`
(`uintUndef` after reset). -/
def GLS.DepthMask (gs : GLS) (flag : Bool) : List GLCall × GLS :=
  if gs.depthMask = intTrue ∧ flag then ([], gs)
  else if gs.depthMask = intFalse ∧ ¬flag then ([], gs)
  else
    ([GLCall.depthMask flag],
      { gs with depthMask := if flag then intTrue else intFalse })

/-- `FrontFace`: elided when the cached winding equals the argument. -/
def GLS.FrontFace (gs : GLS) (mode : Nat) : List GLCall × GLS :=
  if gs.frontFace = mode then ([], gs)
  else ([GLCall.frontFace mode], { gs with frontFace := mode })

/-- `LineWidth`: elided when the cached width equals the argument. -/
def GLS.LineWidth (gs : GLS) (width : Int) : List GLCall × GLS :=
  if gs.lineWidth = width then ([], gs)
  else ([GLCall.lineWidth width], { gs with lineWidth := width })

/-- `PolygonMode`: elided when both cached components match. -/
def GLS.PolygonMode (gs : GLS) (face mode : Nat) : List GLCall × GLS :=
  if gs.polygonModeFace = face ∧ gs.polygonModeMode = mode then ([], gs)
  else
    ([GLCall.polygonMode face mode],
      { gs with polygonModeFace := face, polygonModeMode := mode })

/-- `PolygonOffset`: elided when both cached components match. -/
def GLS.PolygonOffset (gs : GLS) (factor units : Int) : List GLCall × GLS :=
  if gs.polygonOffsetFactor = factor ∧ gs.polygonOffsetUnits = units then
    ([], gs)
  else
    ([GLCall.polygonOffset factor units],
      { gs with polygonOffsetFactor := factor, polygonOffsetUnits := units })

/-- `Viewport`: the source has **no** cache comparison here — the driver call
is issued unconditionally and the cached rectangle is then updated. -/
def GLS.Viewport (gs : GLS) (x y width height : Int) : List GLCall × GLS :=
  ([GLCall.viewport x y width height],
    { gs with viewportX := x, viewportY := y,
              viewportWidth := width, viewportHeight := height })

/-- `Enable`: a hit (capability already `capEnabled`) increments `Caphits`
and issues nothing; otherwise the driver call is issued and cached. -/
def GLS.Enable (gs : GLS) (cap : Int) : List GLCall × GLS :=
  if lookupD gs.capabilities cap 0 = capEnabled then
    ([], { gs with stats := { gs.stats with Caphits := gs.stats.Caphits + 1 } })
  else
    ([GLCall.enable cap],
      { gs with capabilities := insertA gs.capabilities cap capEnabled })

/-- `Disable`: mirror image of `Enable` with `capDisabled`. -/
def GLS.Disable (gs : GLS) (cap : Int) : List GLCall × GLS :=
  if lookupD gs.capabilities cap 0 = capDisabled then
    ([], { gs with stats := { gs.stats with Caphits := gs.stats.Caphits + 1 } })
  else
    ([GLCall.disable cap],
      { gs with capabilities := insertA gs.capabilities cap capDisabled })

/-- `CullFace`: plain pass-through, no caching. -/
def GLS.CullFace (gs : GLS) (mode : Nat) : List GLCall × GLS :=
  ([GLCall.cullFace mode], gs)

/-- `Clear`: plain pass-through. -/
def GLS.Clear (gs : GLS) (mask : Nat) : List GLCall × GLS :=
  ([GLCall.clear mask], gs)

/-- `BindBuffer`: plain pass-through. -/
def GLS.BindBuffer (gs : GLS) (target : Int) (vbo : Nat) : List GLCall × GLS :=
  ([GLCall.bindBuffer target vbo], gs)

/-- `BindTexture`: plain pass-through. -/
def GLS.BindTexture (gs : GLS) (target : Int) (tex : Nat) : List GLCall × GLS :=
  ([GLCall.bindTexture target tex], gs)

/-- `BindVertexArray`: plain pass-through. -/
def GLS.BindVertexArray (gs : GLS) (vao : Nat) : List GLCall × GLS :=
  ([GLCall.bindVertexArray vao], gs)

/-- `DrawArrays`: pass-through plus `Drawcalls` increment. -/
def GLS.DrawArrays (gs : GLS) (mode : Nat) (first count : Int) :
    List GLCall × GLS :=
  ([GLCall.drawArrays mode first count],
    { gs with stats := { gs.stats with Drawcalls := gs.stats.Drawcalls + 1 } })

/-- `DrawElements`: pass-through plus `Drawcalls` increment. -/
def GLS.DrawElements (gs : GLS) (mode : Nat) (count : Int) (itype : Nat)
    (start : Nat) : List GLCall × GLS :=
  ([GLCall.drawElements mode count itype start],
    { gs with stats := { gs.stats with Drawcalls := gs.stats.Drawcalls + 1 } })

/-- `Uniform1i`: pass-through plus `Unisets` increment. -/
def GLS.Uniform1i (gs : GLS) (location v0 : Int) : List GLCall × GLS :=
  ([GLCall.uniform1i location v0],
    { gs with stats := { gs.stats with Unisets := gs.stats.Unisets + 1 } })

/-- `Uniform1f`: pass-through plus `Unisets` increment. -/
def GLS.Uniform1f (gs : GLS) (location : Int) (v0 : Int) : List GLCall × GLS :=
  ([GLCall.uniform1f location v0],
    { gs with stats := { gs.stats with Unisets := gs.stats.Unisets + 1 } })

/-- `Uniform4f`: pass-through plus `Unisets` increment. -/
def GLS.Uniform4f (gs : GLS) (location : Int) (v0 v1 v2 v3 : Int) :
    List GLCall × GLS :=
  ([GLCall.uniform4f location v0 v1 v2 v3],
    { gs with stats := { gs.stats with Unisets := gs.stats.Unisets + 1 } })

/-- `UniformMatrix4fv`: pass-through plus `Unisets` increment. -/
def GLS.UniformMatrix4fv (gs : GLS) (location : Int) (count : Int) :
    List GLCall × GLS :=
  ([GLCall.uniformMatrix4fv location count],
    { gs with stats := { gs.stats with Unisets := gs.stats.Unisets + 1 } })

/-- `GenBuffer`: creates a driver buffer, increments the live count; the
handle is whatever the driver returned (a parameter of the model). -/
def GLS.GenBuffer (gs : GLS) (_handle : Nat) : List GLCall × GLS :=
  ([GLCall.createBuffer],
    { gs with stats := { gs.stats with Buffers := gs.stats.Buffers + 1 } })

/-- `GenTexture`: creates a driver texture, increments the live count. -/
def GLS.GenTexture (gs : GLS) (_handle : Nat) : List GLCall × GLS :=
  ([GLCall.createTexture],
    { gs with stats := { gs.stats with Textures := gs.stats.Textures + 1 } })

/-- `GenVertexArray`: creates a driver VAO, increments the live count. -/
def GLS.GenVertexArray (gs : GLS) (_handle : Nat) : List GLCall × GLS :=
  ([GLCall.createVertexArray],
    { gs with stats := { gs.stats with Vaos := gs.stats.Vaos + 1 } })

/-- `CreateProgram`: pass-through, touches no counter. -/
def GLS.CreateProgram (gs : GLS) : List GLCall × GLS :=
  ([GLCall.createProgram], gs)

/-- `CreateShader`: pass-through, touches no counter. -/
def GLS.CreateShader (gs : GLS) (stype : Nat) : List GLCall × GLS :=
  ([GLCall.createShader stype], gs)

/-- `DeleteBuffers`: one driver delete and one `Buffers` decrement per
element of the variadic argument. -/
def GLS.DeleteBuffers (gs : GLS) (bufs : List Nat) : List GLCall × GLS :=
  match bufs with
  | [] => ([], gs)
  | b :: rest =>
    let gs1 : GLS :=
      { gs with stats := { gs.stats with Buffers := gs.stats.Buffers - 1 } }
    let (calls, gs2) := GLS.DeleteBuffers gs1 rest
    (GLCall.deleteBuffer b :: calls, gs2)

/-- `DeleteTextures`: one driver delete and one `Textures` decrement each. -/
def GLS.DeleteTextures (gs : GLS) (texs : List Nat) : List GLCall × GLS :=
  match texs with
  | [] => ([], gs)
  | t :: rest =>
    let gs1 : GLS :=
      { gs with stats := { gs.stats with Textures := gs.stats.Textures - 1 } }
    let (calls, gs2) := GLS.DeleteTextures gs1 rest
    (GLCall.deleteTexture t :: calls, gs2)

/-- `DeleteVertexArrays`: one driver delete and one `Vaos` decrement each. -/
def GLS.DeleteVertexArrays (gs : GLS) (vaos : List Nat) : List GLCall × GLS :=
  match vaos with
  | [] => ([], gs)
  | v :: rest =>
    let gs1 : GLS :=
      { gs with stats := { gs.stats with Vaos := gs.stats.Vaos - 1 } }
    let (calls, gs2) := GLS.DeleteVertexArrays gs1 rest
    (GLCall.deleteVertexArray v :: calls, gs2)

/-- `DeleteShader`: pure pass-through — no counter is touched. -/
def GLS.DeleteShader (gs : GLS) (shader : Nat) : List GLCall × GLS :=
  ([GLCall.deleteShader shader], gs)

/-- `DeleteProgram`: pure pass-through — neither `stats` nor the
known-programs map is touched. -/
def GLS.DeleteProgram (gs : GLS) (program : Nat) : List GLCall × GLS :=
  ([GLCall.deleteProgram program], gs)

/-- `UseProgram`: panics (`none`) on a zero handle; otherwise binds the
program, records it as current and inserts it into the known-programs map
if not already there. -/
def GLS.UseProgram (gs : GLS) (prog : Program) : Option (List GLCall × GLS) :=
  if prog.handle = 0 then none
  else
    some ([GLCall.useProgram prog.handle],
      { gs with prog := some prog,
                programs :=
                  if prog ∈ gs.programs then gs.programs
                  else gs.programs ++ [prog] })

/-- One invocation of a modelled `GLS` method, with its arguments.
Used to quantify over arbitrary sequences of cache operations. -/
inductive GLSOp where
  | enable (cap : Int)
  | disable (cap : Int)
  | activeTexture (texture : Nat)
  | blendEquation (mode : Nat)
  | blendEquationSeparate (modeRGB modeAlpha : Nat)
  | blendFunc (sfactor dfactor : Nat)
  | blendFuncSeparate (srcRGB dstRGB srcAlpha dstAlpha : Nat)
  | depthFunc (mode : Nat)
  | depthMask (flag : Bool)
  | frontFace (mode : Nat)
  | lineWidth (width : Int)
  | polygonMode (face mode : Nat)
  | polygonOffset (factor units : Int)
  | viewport (x y width height : Int)
  | cullFace (mode : Nat)
  | clear (mask : Nat)
  | bindBuffer (target : Int) (vbo : Nat)
  | bindTexture (target : Int) (tex : Nat)
  | bindVertexArray (vao : Nat)
  | useProgram (prog : Program)
  | drawArrays (mode : Nat) (first count : Int)
  | drawElements (mode : Nat) (count : Int) (itype : Nat) (start : Nat)
  | uniform1i (location v0 : Int)
  | uniform1f (location : Int) (v0 : Int)
  | uniform4f (location : Int) (v0 v1 v2 v3 : Int)
  | uniformMatrix4fv (location : Int) (count : Int)
  | genBuffer (handle : Nat)
  | genTexture (handle : Nat)
  | genVertexArray (handle : Nat)
  | createProgram
  | createShader (stype : Nat)
  | deleteBuffers (bufs : List Nat)
  | deleteTextures (texs : List Nat)
  | deleteVertexArrays (vaos : List Nat)
  | deleteShader (shader : Nat)
  | deleteProgram (program : Nat)
deriving DecidableEq, Repr

/-- Dispatch one operation to the corresponding `GLS` method. `none` models
the Go `panic` of `UseProgram` on a zero program handle; every other
operation always returns normally. -/
def step (gs : GLS) : GLSOp → Option (List GLCall × GLS)
  | GLSOp.enable cap => some (gs.Enable cap)
  | GLSOp.disable cap => some (gs.Disable cap)
  | GLSOp.activeTexture texture => some (gs.ActiveTexture texture)
  | GLSOp.blendEquation mode => some (gs.BlendEquation mode)
  | GLSOp.blendEquationSeparate mr ma => some (gs.BlendEquationSeparate mr ma)
  | GLSOp.blendFunc s d => some (gs.BlendFunc s d)
  | GLSOp.blendFuncSeparate sr dr sa da => some (gs.BlendFuncSeparate sr dr sa da)
  | GLSOp.depthFunc mode => some (gs.DepthFunc mode)
  | GLSOp.depthMask flag => some (gs.DepthMask flag)
  | GLSOp.frontFace mode => some (gs.FrontFace mode)
  | GLSOp.lineWidth width => some (gs.LineWidth width)
  | GLSOp.polygonMode face mode => some (gs.PolygonMode face mode)
  | GLSOp.polygonOffset factor units => some (gs.PolygonOffset factor units)
  | GLSOp.viewport x y w h => some (gs.Viewport x y w h)
  | GLSOp.cullFace mode => some (gs.CullFace mode)
  | GLSOp.clear mask => some (gs.Clear mask)
  | GLSOp.bindBuffer target vbo => some (gs.BindBuffer target vbo)
  | GLSOp.bindTexture target tex => some (gs.BindTexture target tex)
  | GLSOp.bindVertexArray vao => some (gs.BindVertexArray vao)
  | GLSOp.useProgram prog => gs.UseProgram prog
  | GLSOp.drawArrays mode first count => some (gs.DrawArrays mode first count)
  | GLSOp.drawElements mode count itype start =>
      some (gs.DrawElements mode count itype start)
  | GLSOp.uniform1i location v0 => some (gs.Uniform1i location v0)
  | GLSOp.uniform1f location v0 => some (gs.Uniform1f location v0)
  | GLSOp.uniform4f location v0 v1 v2 v3 =>
      some (gs.Uniform4f location v0 v1 v2 v3)
  | GLSOp.uniformMatrix4fv location count =>
      some (gs.UniformMatrix4fv location count)
  | GLSOp.genBuffer handle => some (gs.GenBuffer handle)
  | GLSOp.genTexture handle => some (gs.GenTexture handle)
  | GLSOp.genVertexArray handle => some (gs.GenVertexArray handle)
  | GLSOp.createProgram => some gs.CreateProgram
  | GLSOp.createShader stype => some (gs.CreateShader stype)
  | GLSOp.deleteBuffers bufs => some (gs.DeleteBuffers bufs)
  | GLSOp.deleteTextures texs => some (gs.DeleteTextures texs)
  | GLSOp.deleteVertexArrays vaos => some (gs.DeleteVertexArrays vaos)
  | GLSOp.deleteShader shader => some (gs.DeleteShader shader)
  | GLSOp.deleteProgram program => some (gs.DeleteProgram program)

/-- The operations whose methods compare the argument against a cached value
and elide the driver call on equality. `Viewport` is deliberately **not**
in this set: its method has no comparison. -/
def isCachedSetter : GLSOp → Bool
  | GLSOp.enable _ => true
  | GLSOp.disable _ => true
  | GLSOp.activeTexture _ => true
  | GLSOp.blendEquation _ => true
  | GLSOp.blendEquationSeparate _ _ => true
  | GLSOp.blendFunc _ _ => true
  | GLSOp.blendFuncSeparate _ _ _ _ => true
  | GLSOp.depthFunc _ => true
  | GLSOp.depthMask _ => true
  | GLSOp.frontFace _ => true
  | GLSOp.lineWidth _ => true
  | GLSOp.polygonMode _ _ => true
  | GLSOp.polygonOffset _ _ => true
  | _ => false

/-- The capability toggles — the only setters with a hit counter. -/
def isCapToggle : GLSOp → Bool
  | GLSOp.enable _ => true
  | GLSOp.disable _ => true
  | _ => false

/-- `Caphits` bumped by one, everything else untouched. -/
def bumpCaphits (gs : GLS) : GLS :=
  { gs with stats := { gs.stats with Caphits := gs.stats.Caphits + 1 } }

/-- The setter arguments that collide with the value `reset` stored in the
corresponding cache slot. `reset` uses the `uintUndef` sentinel only for
the active texture unit, the combined blend equation/factors, the separate
blend factors, the depth mask and the side view; it stores plain `0` in the
front-face, depth-function, separate blend-equation and polygon-mode slots,
`0.0` in the line-width slot and `(-1, -1)` in the polygon-offset slots. -/
def resetElides : GLSOp → Bool
  | GLSOp.activeTexture t => t == uintUndef
  | GLSOp.blendEquation m => m == uintUndef
  | GLSOp.blendEquationSeparate mr ma => mr == 0 && ma == 0
  | GLSOp.blendFunc s d => s == uintUndef && d == uintUndef
  | GLSOp.blendFuncSeparate sr dr sa da =>
      sr == uintUndef && dr == uintUndef && sa == uintUndef && da == uintUndef
  | GLSOp.depthFunc m => m == 0
  | GLSOp.frontFace m => m == 0
  | GLSOp.lineWidth w => w == 0
  | GLSOp.polygonMode f m => f == 0 && m == 0
  | GLSOp.polygonOffset f u => f == -1 && u == -1
  | _ => false

end gls

namespace renderer

/-- A material owned by a graphic. `transparent` is the material's
transparency flag read by the bucketing loop. Modelled from the spec:
`shaderErr` records the error, if any, that the external shader manager
(`shaman.SetProgram`) returns when asked to resolve this material's shader
spec — shader resolution itself is a collaborator outside the two modelled
source files. `mid` identifies the material in the draw trace. -/
structure Material where
  mid : Nat
  transparent : Bool
  shaderErr : Option String
deriving DecidableEq, Repr

/-- Data of a graphic node read by the renderer. Modelled from the spec:
`inFrustum` is the result of the `math32` frustum/bounding-box intersection
test for the node's world-transformed bounding box, and `viewZ` is the Z
component of the graphic's position transformed by its model-view matrix —
both computed by collaborator packages outside the modelled sources and
carried here as data. `renderable`, `cullable`, `renderOrder` and the
owned `materials` are the fields the renderer reads directly. -/
structure GraphicData where
  renderable : Bool
  cullable : Bool
  inFrustum : Bool
  renderOrder : Int
  viewZ : Int
  materials : List Material
deriving DecidableEq, Repr

/-- The role of a scene node in the classification pass: a graphic, one of
the four concrete light kinds (`light.ILight` has exactly these concrete
types — the `panic("Invalid light type")` default branch is unreachable in
the model because the kind set is closed), or an "other" node.
`renderVisible` of an other node is the value its `Visible()` flag has when
the "others" render loop reaches it (the flag is read a second time there
and may have been toggled since classification). -/
inductive NodeKind where
  | graphic (g : GraphicData)
  | ambient
  | directional
  | point
  | spot
  | other (renderVisible : Bool)
deriving DecidableEq, Repr

mutual
/-- A scene-graph node: visibility flag, role and ordered children.
`nid` is the node's identity. -/
inductive SNode where
  | node (nid : Nat) (visible : Bool) (kind : NodeKind) (children : SForest)
/-- An ordered list of child nodes. -/
inductive SForest where
  | nil
  | cons (head : SNode) (tail : SForest)
end

/-- The per-frame classification lists of `Renderer`, rebuilt by
`renderScene`: light lists, other nodes (with the visibility flag they will
show at render time), rendered graphics and culled graphics. -/
structure FrameClass where
  ambLights : List Nat
  dirLights : List Nat
  pointLights : List Nat
  spotLights : List Nat
  others : List (Nat × Bool)
  rgraphics : List (Nat × GraphicData)
  cgraphics : List (Nat × GraphicData)
deriving DecidableEq, Repr

/-- The cleared scratch lists at the start of `renderScene`. -/
def emptyFC : FrameClass :=
  { ambLights := [], dirLights := [], pointLights := []
    spotLights := [], others := [], rgraphics := [], cgraphics := [] }

/-- The body of `classifyNode` that files the node itself: a renderable
graphic goes to the rendered or culled list depending on `cullable` and the
frustum test; a non-renderable graphic is appended to no list; a light goes
to its kind's list; anything else goes to the "other" list. -/
def classifySelf (fc : FrameClass) (j : Nat) : NodeKind → FrameClass
  | NodeKind.graphic g =>
    if g.renderable then
      if g.cullable then
        if g.inFrustum then { fc with rgraphics := fc.rgraphics ++ [(j, g)] }
        else { fc with cgraphics := fc.cgraphics ++ [(j, g)] }
      else { fc with rgraphics := fc.rgraphics ++ [(j, g)] }
    else fc
  | NodeKind.ambient => { fc with ambLights := fc.ambLights ++ [j] }
  | NodeKind.directional => { fc with dirLights := fc.dirLights ++ [j] }
  | NodeKind.point => { fc with pointLights := fc.pointLights ++ [j] }
  | NodeKind.spot => { fc with spotLights := fc.spotLights ++ [j] }
  | NodeKind.other rv => { fc with others := fc.others ++ [(j, rv)] }

mutual
/-- `classifyNode` of `renderScene`: an invisible node prunes its whole
subtree; a visible node is filed by `classifySelf` and its children are
then classified in order regardless of the node's own kind. -/
def classifyNode (fc : FrameClass) : SNode → FrameClass
  | SNode.node j vis kind ch =>
    if vis then classifyForest (classifySelf fc j kind) ch else fc
/-- The `for _, ichild := range node.Children()` loop of `classifyNode`. -/
def classifyForest (fc : FrameClass) : SForest → FrameClass
  | SForest.nil => fc
  | SForest.cons c cs => classifyForest (classifyNode fc c) cs
end

/-- Whether `classifySelf` appends a node of this kind to some list. -/
def clsKind : NodeKind → Bool
  | NodeKind.graphic g => g.renderable
  | _ => true

mutual
/-- All node identities of a tree, in preorder. -/
def allIds : SNode → List Nat
  | SNode.node j _ _ ch => j :: allIdsF ch
def allIdsF : SForest → List Nat
  | SForest.nil => []
  | SForest.cons c cs => allIds c ++ allIdsF cs
end

mutual
/-- Identities of the nodes the traversal visits: visible nodes all of
whose ancestors are visible, in preorder. -/
def visIds : SNode → List Nat
  | SNode.node j vis _ ch => if vis then j :: visIdsF ch else []
def visIdsF : SForest → List Nat
  | SForest.nil => []
  | SForest.cons c cs => visIds c ++ visIdsF cs
end

mutual
/-- Identities of the visited nodes that `classifySelf` files into a list
(everything visited except non-renderable graphics), in preorder. -/
def clsIds : SNode → List Nat
  | SNode.node j vis kind ch =>
    if vis then (if clsKind kind then [j] else []) ++ clsIdsF ch else []
def clsIdsF : SForest → List Nat
  | SForest.nil => []
  | SForest.cons c cs => clsIds c ++ clsIdsF cs
end

/-- Number of occurrences of the identity `i` across all seven
classification lists. -/
def totalCount (fc : FrameClass) (i : Nat) : Nat :=
  (fc.rgraphics.map Prod.fst).count i + (fc.cgraphics.map Prod.fst).count i +
    fc.ambLights.count i + fc.dirLights.count i + fc.pointLights.count i +
    fc.spotLights.count i + (fc.others.map Prod.fst).count i

/-- A single-node scene: the root is visible and is a graphic whose
`Renderable()` flag is false. -/
def nonRenderableScene : SNode :=
  SNode.node 0 true
    (NodeKind.graphic
      { renderable := false, cullable := false, inFrustum := false
        renderOrder := 0, viewZ := 0, materials := [] })
    SForest.nil

/-- A small scene exercising every branch: a visible "other" root with a
renderable graphic child, an ambient light child and an invisible spot
light child. -/
def witnessScene : SNode :=
  SNode.node 0 true (NodeKind.other true)
    (SForest.cons
      (SNode.node 1 true
        (NodeKind.graphic
          { renderable := true, cullable := false, inFrustum := false
            renderOrder := 0, viewZ := 0, materials := [] })
        SForest.nil)
      (SForest.cons (SNode.node 2 true NodeKind.ambient SForest.nil)
        (SForest.cons (SNode.node 3 false NodeKind.spot SForest.nil)
          SForest.nil)))

/-- One entry of an opaque/transparent bucket (`graphic.GraphicMaterial`):
the owning graphic's identity, user render order, view-space Z and the
material. -/
structure GrMat where
  gid : Nat
  renderOrder : Int
  viewZ : Int
  mat : Material
deriving DecidableEq, Repr

/-- The bucket entries contributed by one rendered graphic: one per owned
material, in material order. -/
def grmatsOf (j : Nat) (g : GraphicData) : List GrMat :=
  g.materials.map fun m =>
    { gid := j, renderOrder := g.renderOrder, viewZ := g.viewZ, mat := m }

/-- The bucketing loop of `renderScene`: for each rendered graphic in list
order, each of its materials is appended to the transparent bucket when its
transparency flag is set and to the opaque bucket otherwise. Returns
(opaque, transparent). -/
def buildBuckets : List (Nat × GraphicData) → List GrMat × List GrMat
  | [] => ([], [])
  | (j, g) :: rest =>
    ((grmatsOf j g).filter (fun e => !e.mat.transparent) ++ (buildBuckets rest).1,
      (grmatsOf j g).filter (fun e => e.mat.transparent) ++ (buildBuckets rest).2)

/-- The `sort.Slice` less function of `zSortGraphicMaterials`: the
user-assigned render order decides first (ascending); on ties the
view-space Z of the graphics decides — `g1pos.Z < g2pos.Z` when sorting
back-to-front (transparent bucket), `g1pos.Z > g2pos.Z` otherwise
(opaque bucket). -/
def lessGM (backToFront : Bool) (a b : GrMat) : Prop :=
  if a.renderOrder ≠ b.renderOrder then a.renderOrder < b.renderOrder
  else if backToFront then a.viewZ < b.viewZ else b.viewZ < a.viewZ

instance (bf : Bool) (a b : GrMat) : Decidable (lessGM bf a b) := by
  unfold lessGM
  infer_instance

/-- The postcondition relation of `sort.Slice` with `lessGM`: `a` may come
before `b` exactly when `b` is not strictly less than `a`. -/
def rleGM (backToFront : Bool) (a b : GrMat) : Prop :=
  ¬lessGM backToFront b a

instance (bf : Bool) (a b : GrMat) : Decidable (rleGM bf a b) := by
  unfold rleGM
  infer_instance

instance (bf : Bool) : IsTotal GrMat (rleGM bf) := by
  constructor
  intro a b
  unfold rleGM lessGM
  cases bf <;> split_ifs <;> omega

instance (bf : Bool) : IsTrans GrMat (rleGM bf) := by
  constructor
  intro a b c
  unfold rleGM lessGM
  cases bf <;> split_ifs <;> omega

/-- `zSortGraphicMaterials` on one bucket: `sort.Slice` leaves the bucket
sorted with respect to the comparator (ties between equal keys are in
unspecified order in Go; the model fixes the stable result, which satisfies
the same postcondition). -/
def sortGM (backToFront : Bool) (l : List GrMat) : List GrMat :=
  List.insertionSort (rleGM backToFront) l

/-- Events observable at the renderer level during one frame: an "other"
node's render hook, the frame-buffer clear, a successful shader-program
resolution/bind, one light's uniform setup, and one bucket entry's draw. -/
inductive REvent where
  | otherRender (nid : Nat)
  | clear
  | setProgram (mid : Nat)
  | lightSetup (lid : Nat)
  | draw (mid : Nat)
deriving DecidableEq, Repr

/-- `renderer.Stats`: per-frame counts. -/
structure RStats where
  Graphics : Nat
  Lights : Nat
  Panels : Nat
  Others : Nat
deriving DecidableEq, Repr

/-- The Go zero value of `renderer.Stats` (`r.stats = Stats{}`). -/
def zeroRStats : RStats :=
  { Graphics := 0, Lights := 0, Panels := 0, Others := 0 }

/-- The lights of a frame in setup order: ambient, directional, point,
spot — each light list is iterated per bucket entry. -/
def lightsOf (fc : FrameClass) : List Nat :=
  fc.ambLights ++ fc.dirLights ++ fc.pointLights ++ fc.spotLights

/-- The events of rendering one bucket entry whose shader resolves: the
program bind, the four light-setup loops, then the entry's draw. -/
def entryEvents (lights : List Nat) (e : GrMat) : List REvent :=
  REvent.setProgram e.mat.mid ::
    (lights.map REvent.lightSetup ++ [REvent.draw e.mat.mid])

/-- `renderGraphicMaterials`: renders the entries in order; the loop body
resolves the entry's shader first and returns on the first resolution
error, keeping everything already rendered. Result: (events, number of
entries rendered, error). -/
def renderGrmats (lights : List Nat) : List GrMat → List REvent × Nat × Option String
  | [] => ([], 0, none)
  | e :: rest =>
    match e.mat.shaderErr with
    | some msg => ([], 0, some msg)
    | none =>
      (entryEvents lights e ++ (renderGrmats lights rest).1,
        (renderGrmats lights rest).2.1 + 1,
        (renderGrmats lights rest).2.2)

/-- The opaque-then-transparent rendering phase of `renderScene`: the
opaque bucket is rendered first; on an opaque error the transparent bucket
is not rendered at all and the error is reported; otherwise the
transparent bucket is rendered and its error (if any) is reported. -/
def renderBoth (lights : List Nat) (o tr : List GrMat) :
    List REvent × Nat × Option String :=
  match (renderGrmats lights o).2.2 with
  | some msg => ((renderGrmats lights o).1, (renderGrmats lights o).2.1, some msg)
  | none =>
    ((renderGrmats lights o).1 ++ (renderGrmats lights tr).1,
      (renderGrmats lights o).2.1 + (renderGrmats lights tr).2.1,
      (renderGrmats lights tr).2.2)

/-- The two buckets of a frame after the optional sort pass: opaque sorted
front-to-back (`backToFront = false`), transparent back-to-front
(`backToFront = true`); insertion order when sorting is disabled. -/
def frameBuckets (sortObjects : Bool) (t : SNode) : List GrMat × List GrMat :=
  ((if sortObjects then sortGM false (buildBuckets (classifyNode emptyFC t).rgraphics).1
    else (buildBuckets (classifyNode emptyFC t).rgraphics).1),
    (if sortObjects then sortGM true (buildBuckets (classifyNode emptyFC t).rgraphics).2
    else (buildBuckets (classifyNode emptyFC t).rgraphics).2))

/-- The "other" nodes' render hooks in list order, skipping any node whose
visibility flag is off when its turn comes. -/
def othersEvents (fc : FrameClass) : List REvent :=
  (fc.others.filter (fun o => o.2)).map fun o => REvent.otherRender o.1

/-- The clear decision of `renderScene`: clear when the current frame has
any opaque or transparent bucket entry or the previous frame rendered at
least one graphic. -/
def clearNeeded (prevGraphics : Nat) (o tr : List GrMat) : Bool :=
  decide (0 < o.length) || decide (0 < tr.length) || decide (0 < prevGraphics)

/-- Result of `renderScene`: the frame's event trace, the frame stats, the
`rendered` flag and the error, if any. -/
structure SceneResult where
  events : List REvent
  stats : RStats
  rendered : Bool
  err : Option String
deriving DecidableEq, Repr

/-- `renderScene`: classify the scene, bucket and optionally sort the
rendered graphics' materials, run the "other" hooks, clear if needed
(setting `rendered`), then render the opaque bucket followed by the
transparent bucket, aborting on the first shader-resolution error. Each
rendered entry sets up every classified light, so the lights counter grows
by the light count per rendered entry. -/
def renderScene (prevGraphics : Nat) (sortObjects : Bool) (t : SNode) :
    SceneResult :=
  { events :=
      othersEvents (classifyNode emptyFC t) ++
        (if clearNeeded prevGraphics (frameBuckets sortObjects t).1
            (frameBuckets sortObjects t).2 then [REvent.clear] else []) ++
        (renderBoth (lightsOf (classifyNode emptyFC t))
          (frameBuckets sortObjects t).1 (frameBuckets sortObjects t).2).1
    stats :=
      { Graphics :=
          (renderBoth (lightsOf (classifyNode emptyFC t))
            (frameBuckets sortObjects t).1 (frameBuckets sortObjects t).2).2.1
        Lights :=
          (renderBoth (lightsOf (classifyNode emptyFC t))
            (frameBuckets sortObjects t).1 (frameBuckets sortObjects t).2).2.1 *
            (lightsOf (classifyNode emptyFC t)).length
        Panels := 0
        Others := ((classifyNode emptyFC t).others.filter (fun o => o.2)).length }
    rendered :=
      clearNeeded prevGraphics (frameBuckets sortObjects t).1
        (frameBuckets sortObjects t).2
    err :=
      (renderBoth (lightsOf (classifyNode emptyFC t))
        (frameBuckets sortObjects t).1 (frameBuckets sortObjects t).2).2.2 }

/-- `Renderer.Render`: resets the frame stats, renders the scene when one
is set, and records this frame's stats as the previous-frame stats — except
on error, where the previous-frame stats are left untouched and the error
is returned unchanged. Returns ((didRender, error), new previous-frame
stats, event trace). -/
def Render (prevStats : RStats) (sortObjects : Bool) (scene : Option SNode) :
    (Bool × Option String) × RStats × List REvent :=
  match scene with
  | none => ((false, none), zeroRStats, [])
  | some t =>
    match (renderScene prevStats.Graphics sortObjects t).err with
    | some e =>
      (((renderScene prevStats.Graphics sortObjects t).rendered, some e),
        prevStats, (renderScene prevStats.Graphics sortObjects t).events)
    | none =>
      (((renderScene prevStats.Graphics sortObjects t).rendered, none),
        (renderScene prevStats.Graphics sortObjects t).stats,
        (renderScene prevStats.Graphics sortObjects t).events)

/-- A transparent bucket entry with view-space Z `z` and render order 0. -/
def gmZ (z : Int) : GrMat :=
  { gid := 0, renderOrder := 0, viewZ := z
    mat := { mid := 0, transparent := true, shaderErr := none } }

/-- A bucket entry with render order 1, used by the sort witness. -/
def gmR1 : GrMat :=
  { gid := 0, renderOrder := 1, viewZ := 0
    mat := { mid := 0, transparent := true, shaderErr := none } }

/-- A scene with one visible, renderable, non-cullable graphic owning one
opaque material whose shader resolves. -/
def sceneG : SNode :=
  SNode.node 0 true
    (NodeKind.graphic
      { renderable := true, cullable := false, inFrustum := false
        renderOrder := 0, viewZ := 0
        materials := [{ mid := 1, transparent := false, shaderErr := none }] })
    SForest.nil

/-- A scene with no drawables at all (a single hidden "other" node). -/
def sceneE : SNode :=
  SNode.node 5 true (NodeKind.other false) SForest.nil

/-- Projection of a trace event to the material id of a draw. -/
def drawOf : REvent → Option Nat
  | REvent.draw m => some m
  | _ => none

/-- Projection of a trace event to the node id of an "other" render hook. -/
def otherOf : REvent → Option Nat
  | REvent.otherRender i => some i
  | _ => none

/-- The prefix of entries before the first entry whose shader resolution
fails, together with that entry's error — `none` when every entry
resolves. -/
def firstFailure : List GrMat → Option (List GrMat × String)
  | [] => none
  | e :: rest =>
    match e.mat.shaderErr with
    | some msg => some ([], msg)
    | none =>
      match firstFailure rest with
      | some p => some (e :: p.1, p.2)
      | none => none

/-- A scene with an "other" node and a graphic owning one opaque and one
transparent material, all shaders resolving. -/
def sceneC5 : SNode :=
  SNode.node 0 true (NodeKind.other true)
    (SForest.cons
      (SNode.node 1 true
        (NodeKind.graphic
          { renderable := true, cullable := false, inFrustum := false
            renderOrder := 0, viewZ := 0
            materials :=
              [{ mid := 10, transparent := false, shaderErr := none },
                { mid := 11, transparent := true, shaderErr := none }] })
        SForest.nil)
      SForest.nil)

/-- A scene with one graphic owning two opaque materials: the first
resolves, the second's shader resolution fails with "boom". -/
def sceneC7 : SNode :=
  SNode.node 0 true
    (NodeKind.graphic
      { renderable := true, cullable := false, inFrustum := false
        renderOrder := 0, viewZ := 0
        materials :=
          [{ mid := 20, transparent := false, shaderErr := none },
            { mid := 21, transparent := false, shaderErr := some "boom" }] })
    SForest.nil

/-- The bucket entry of `sceneC7` that renders before the failure. -/
def okEntryC7 : GrMat :=
  { gid := 0, renderOrder := 0, viewZ := 0
    mat := { mid := 20, transparent := false, shaderErr := none } }

end renderer

namespace gls

theorem lookupD_insertA (l : List (Int × Int)) (k v : Int) :
    lookupD (insertA l k v) k 0 = v := by
  induction l with
  | nil => simp [insertA, lookupD, List.find?]
  | cons p rest ih =>
    by_cases h : p.1 = k
    · simp [insertA, h, lookupD, List.find?]
    · simpa [insertA, h, lookupD, List.find?] using ih

/-- Observable state effects of `DeleteBuffers`. -/
theorem DeleteBuffers_effect (bufs : List Nat) : ∀ gs : GLS,
    (GLS.DeleteBuffers gs bufs).2.stats.Buffers = gs.stats.Buffers - bufs.length ∧
    (GLS.DeleteBuffers gs bufs).2.stats.Textures = gs.stats.Textures ∧
    (GLS.DeleteBuffers gs bufs).2.stats.Vaos = gs.stats.Vaos ∧
    (GLS.DeleteBuffers gs bufs).2.stats.Caphits = gs.stats.Caphits ∧
    (GLS.DeleteBuffers gs bufs).2.stats.UnilocHits = gs.stats.UnilocHits ∧
    (GLS.DeleteBuffers gs bufs).2.stats.UnilocMiss = gs.stats.UnilocMiss ∧
    (GLS.DeleteBuffers gs bufs).2.stats.Unisets = gs.stats.Unisets ∧
    (GLS.DeleteBuffers gs bufs).2.stats.Drawcalls = gs.stats.Drawcalls ∧
    (GLS.DeleteBuffers gs bufs).2.programs = gs.programs := by
  induction bufs with
  | nil => intro gs; simp [GLS.DeleteBuffers]
  | cons b rest ih =>
    intro gs
    have h := ih { gs with stats := { gs.stats with Buffers := gs.stats.Buffers - 1 } }
    simp only [GLS.DeleteBuffers] at h ⊢
    refine ⟨?_, h.2⟩
    rw [h.1]
    simp
    omega

/-- Observable state effects of `DeleteTextures`. -/
theorem DeleteTextures_effect (texs : List Nat) : ∀ gs : GLS,
    (GLS.DeleteTextures gs texs).2.stats.Textures = gs.stats.Textures - texs.length ∧
    (GLS.DeleteTextures gs texs).2.stats.Buffers = gs.stats.Buffers ∧
    (GLS.DeleteTextures gs texs).2.stats.Vaos = gs.stats.Vaos ∧
    (GLS.DeleteTextures gs texs).2.stats.Caphits = gs.stats.Caphits ∧
    (GLS.DeleteTextures gs texs).2.stats.UnilocHits = gs.stats.UnilocHits ∧
    (GLS.DeleteTextures gs texs).2.stats.UnilocMiss = gs.stats.UnilocMiss ∧
    (GLS.DeleteTextures gs texs).2.stats.Unisets = gs.stats.Unisets ∧
    (GLS.DeleteTextures gs texs).2.stats.Drawcalls = gs.stats.Drawcalls ∧
    (GLS.DeleteTextures gs texs).2.programs = gs.programs := by
  induction texs with
  | nil => intro gs; simp [GLS.DeleteTextures]
  | cons t rest ih =>
    intro gs
    have h := ih { gs with stats := { gs.stats with Textures := gs.stats.Textures - 1 } }
    simp only [GLS.DeleteTextures] at h ⊢
    refine ⟨?_, h.2⟩
    rw [h.1]
    simp
    omega

/-- Observable state effects of `DeleteVertexArrays`. -/
theorem DeleteVertexArrays_effect (vaos : List Nat) : ∀ gs : GLS,
    (GLS.DeleteVertexArrays gs vaos).2.stats.Vaos = gs.stats.Vaos - vaos.length ∧
    (GLS.DeleteVertexArrays gs vaos).2.stats.Buffers = gs.stats.Buffers ∧
    (GLS.DeleteVertexArrays gs vaos).2.stats.Textures = gs.stats.Textures ∧
    (GLS.DeleteVertexArrays gs vaos).2.stats.Caphits = gs.stats.Caphits ∧
    (GLS.DeleteVertexArrays gs vaos).2.stats.UnilocHits = gs.stats.UnilocHits ∧
    (GLS.DeleteVertexArrays gs vaos).2.stats.UnilocMiss = gs.stats.UnilocMiss ∧
    (GLS.DeleteVertexArrays gs vaos).2.stats.Unisets = gs.stats.Unisets ∧
    (GLS.DeleteVertexArrays gs vaos).2.stats.Drawcalls = gs.stats.Drawcalls ∧
    (GLS.DeleteVertexArrays gs vaos).2.programs = gs.programs := by
  induction vaos with
  | nil => intro gs; simp [GLS.DeleteVertexArrays]
  | cons v rest ih =>
    intro gs
    have h := ih { gs with stats := { gs.stats with Vaos := gs.stats.Vaos - 1 } }
    simp only [GLS.DeleteVertexArrays] at h ⊢
    refine ⟨?_, h.2⟩
    rw [h.1]
    simp
    omega

theorem second_Enable (gs : GLS) (cap : Int) :
    ((gs.Enable cap).2.Enable cap).1 = [] ∧ (gs.Enable cap).1.length ≤ 1 ∧
    ((gs.Enable cap).2.Enable cap).2 = bumpCaphits (gs.Enable cap).2 := by
  by_cases h : lookupD gs.capabilities cap 0 = capEnabled
  · simp [GLS.Enable, h, bumpCaphits]
  · simp [GLS.Enable, h, lookupD_insertA, bumpCaphits]

theorem second_Disable (gs : GLS) (cap : Int) :
    ((gs.Disable cap).2.Disable cap).1 = [] ∧ (gs.Disable cap).1.length ≤ 1 ∧
    ((gs.Disable cap).2.Disable cap).2 = bumpCaphits (gs.Disable cap).2 := by
  by_cases h : lookupD gs.capabilities cap 0 = capDisabled
  · simp [GLS.Disable, h, bumpCaphits]
  · simp [GLS.Disable, h, lookupD_insertA, bumpCaphits]

theorem second_ActiveTexture (gs : GLS) (t : Nat) :
    ((gs.ActiveTexture t).2.ActiveTexture t).1 = [] ∧
    (gs.ActiveTexture t).1.length ≤ 1 ∧
    ((gs.ActiveTexture t).2.ActiveTexture t).2 = (gs.ActiveTexture t).2 := by
  by_cases h : gs.activeTexture = t <;> simp [GLS.ActiveTexture, h]

theorem second_BlendEquation (gs : GLS) (m : Nat) :
    ((gs.BlendEquation m).2.BlendEquation m).1 = [] ∧
    (gs.BlendEquation m).1.length ≤ 1 ∧
    ((gs.BlendEquation m).2.BlendEquation m).2 = (gs.BlendEquation m).2 := by
  by_cases h : gs.blendEquation = m <;> simp [GLS.BlendEquation, h]

theorem second_BlendEquationSeparate (gs : GLS) (mr ma : Nat) :
    ((gs.BlendEquationSeparate mr ma).2.BlendEquationSeparate mr ma).1 = [] ∧
    (gs.BlendEquationSeparate mr ma).1.length ≤ 1 ∧
    ((gs.BlendEquationSeparate mr ma).2.BlendEquationSeparate mr ma).2 =
      (gs.BlendEquationSeparate mr ma).2 := by
  by_cases h : gs.blendEquationRGB = mr ∧ gs.blendEquationAlpha = ma <;>
    simp [GLS.BlendEquationSeparate, h]

theorem second_BlendFunc (gs : GLS) (s d : Nat) :
    ((gs.BlendFunc s d).2.BlendFunc s d).1 = [] ∧
    (gs.BlendFunc s d).1.length ≤ 1 ∧
    ((gs.BlendFunc s d).2.BlendFunc s d).2 = (gs.BlendFunc s d).2 := by
  by_cases h : gs.blendSrc = s ∧ gs.blendDst = d <;> simp [GLS.BlendFunc, h]

theorem second_BlendFuncSeparate (gs : GLS) (sr dr sa da : Nat) :
    ((gs.BlendFuncSeparate sr dr sa da).2.BlendFuncSeparate sr dr sa da).1 = [] ∧
    (gs.BlendFuncSeparate sr dr sa da).1.length ≤ 1 ∧
    ((gs.BlendFuncSeparate sr dr sa da).2.BlendFuncSeparate sr dr sa da).2 =
      (gs.BlendFuncSeparate sr dr sa da).2 := by
  by_cases h : gs.blendSrcRGB = sr ∧ gs.blendDstRGB = dr ∧
      gs.blendSrcAlpha = sa ∧ gs.blendDstAlpha = da <;>
    simp [GLS.BlendFuncSeparate, h]

theorem second_DepthFunc (gs : GLS) (m : Nat) :
    ((gs.DepthFunc m).2.DepthFunc m).1 = [] ∧
    (gs.DepthFunc m).1.length ≤ 1 ∧
    ((gs.DepthFunc m).2.DepthFunc m).2 = (gs.DepthFunc m).2 := by
  by_cases h : gs.depthFunc = m <;> simp [GLS.DepthFunc, h]

theorem second_DepthMask (gs : GLS) (flag : Bool) :
    ((gs.DepthMask flag).2.DepthMask flag).1 = [] ∧
    (gs.DepthMask flag).1.length ≤ 1 ∧
    ((gs.DepthMask flag).2.DepthMask flag).2 = (gs.DepthMask flag).2 := by
  cases flag <;>
    [by_cases h : gs.depthMask = 0; by_cases h : gs.depthMask = 1] <;>
    simp [GLS.DepthMask, intTrue, intFalse, h]

theorem second_FrontFace (gs : GLS) (m : Nat) :
    ((gs.FrontFace m).2.FrontFace m).1 = [] ∧
    (gs.FrontFace m).1.length ≤ 1 ∧
    ((gs.FrontFace m).2.FrontFace m).2 = (gs.FrontFace m).2 := by
  by_cases h : gs.frontFace = m <;> simp [GLS.FrontFace, h]

theorem second_LineWidth (gs : GLS) (w : Int) :
    ((gs.LineWidth w).2.LineWidth w).1 = [] ∧
    (gs.LineWidth w).1.length ≤ 1 ∧
    ((gs.LineWidth w).2.LineWidth w).2 = (gs.LineWidth w).2 := by
  by_cases h : gs.lineWidth = w <;> simp [GLS.LineWidth, h]

theorem second_PolygonMode (gs : GLS) (f m : Nat) :
    ((gs.PolygonMode f m).2.PolygonMode f m).1 = [] ∧
    (gs.PolygonMode f m).1.length ≤ 1 ∧
    ((gs.PolygonMode f m).2.PolygonMode f m).2 = (gs.PolygonMode f m).2 := by
  by_cases h : gs.polygonModeFace = f ∧ gs.polygonModeMode = m <;>
    simp [GLS.PolygonMode, h]

theorem second_PolygonOffset (gs : GLS) (f u : Int) :
    ((gs.PolygonOffset f u).2.PolygonOffset f u).1 = [] ∧
    (gs.PolygonOffset f u).1.length ≤ 1 ∧
    ((gs.PolygonOffset f u).2.PolygonOffset f u).2 = (gs.PolygonOffset f u).2 := by
  by_cases h : gs.polygonOffsetFactor = f ∧ gs.polygonOffsetUnits = u <;>
    simp [GLS.PolygonOffset, h]

/-- C1 (amended): for every cached state setter — `Enable`/`Disable`,
blend equation/function (combined and separate), depth function/mask,
front-face winding, active texture unit, line width, polygon mode and
polygon offset, but **not** `Viewport` — a second consecutive call with the
same arguments issues no driver call, the pair issues at most one driver
call in total, and the second call changes the state only by incrementing
the `Caphits` hit counter when the setter is `Enable` or `Disable`
(the counter exists for no other setter). -/
theorem cached_setter_second_call_elided (gs : GLS) (op : GLSOp)
    (hset : isCachedSetter op = true)
    (out1 : List GLCall × GLS) (h1 : step gs op = some out1)
    (out2 : List GLCall × GLS) (h2 : step out1.2 op = some out2) :
    out2.1 = [] ∧ out1.1.length ≤ 1 ∧
      out2.2 = (if isCapToggle op then bumpCaphits out1.2 else out1.2) := by
  cases op with
  | enable cap =>
    simp only [step, Option.some.injEq] at h1 h2
    subst h1; subst h2
    simpa [isCapToggle] using second_Enable gs cap
  | disable cap =>
    simp only [step, Option.some.injEq] at h1 h2
    subst h1; subst h2
    simpa [isCapToggle] using second_Disable gs cap
  | activeTexture t =>
    simp only [step, Option.some.injEq] at h1 h2
    subst h1; subst h2
    simpa [isCapToggle] using second_ActiveTexture gs t
  | blendEquation m =>
    simp only [step, Option.some.injEq] at h1 h2
    subst h1; subst h2
    simpa [isCapToggle] using second_BlendEquation gs m
  | blendEquationSeparate mr ma =>
    simp only [step, Option.some.injEq] at h1 h2
    subst h1; subst h2
    simpa [isCapToggle] using second_BlendEquationSeparate gs mr ma
  | blendFunc s d =>
    simp only [step, Option.some.injEq] at h1 h2
    subst h1; subst h2
    simpa [isCapToggle] using second_BlendFunc gs s d
  | blendFuncSeparate sr dr sa da =>
    simp only [step, Option.some.injEq] at h1 h2
    subst h1; subst h2
    simpa [isCapToggle] using second_BlendFuncSeparate gs sr dr sa da
  | depthFunc m =>
    simp only [step, Option.some.injEq] at h1 h2
    subst h1; subst h2
    simpa [isCapToggle] using second_DepthFunc gs m
  | depthMask flag =>
    simp only [step, Option.some.injEq] at h1 h2
    subst h1; subst h2
    simpa [isCapToggle] using second_DepthMask gs flag
  | frontFace m =>
    simp only [step, Option.some.injEq] at h1 h2
    subst h1; subst h2
    simpa [isCapToggle] using second_FrontFace gs m
  | lineWidth w =>
    simp only [step, Option.some.injEq] at h1 h2
    subst h1; subst h2
    simpa [isCapToggle] using second_LineWidth gs w
  | polygonMode f m =>
    simp only [step, Option.some.injEq] at h1 h2
    subst h1; subst h2
    simpa [isCapToggle] using second_PolygonMode gs f m
  | polygonOffset f u =>
    simp only [step, Option.some.injEq] at h1 h2
    subst h1; subst h2
    simpa [isCapToggle] using second_PolygonOffset gs f u
  | viewport x y w h => simp [isCachedSetter] at hset
  | cullFace m => simp [isCachedSetter] at hset
  | clear m => simp [isCachedSetter] at hset
  | bindBuffer t v => simp [isCachedSetter] at hset
  | bindTexture t v => simp [isCachedSetter] at hset
  | bindVertexArray v => simp [isCachedSetter] at hset
  | useProgram p => simp [isCachedSetter] at hset
  | drawArrays m f c => simp [isCachedSetter] at hset
  | drawElements m c i s => simp [isCachedSetter] at hset
  | uniform1i l v => simp [isCachedSetter] at hset
  | uniform1f l v => simp [isCachedSetter] at hset
  | uniform4f l a b c d => simp [isCachedSetter] at hset
  | uniformMatrix4fv l c => simp [isCachedSetter] at hset
  | genBuffer h => simp [isCachedSetter] at hset
  | genTexture h => simp [isCachedSetter] at hset
  | genVertexArray h => simp [isCachedSetter] at hset
  | createProgram => simp [isCachedSetter] at hset
  | createShader s => simp [isCachedSetter] at hset
  | deleteBuffers b => simp [isCachedSetter] at hset
  | deleteTextures t => simp [isCachedSetter] at hset
  | deleteVertexArrays v => simp [isCachedSetter] at hset
  | deleteShader s => simp [isCachedSetter] at hset
  | deleteProgram p => simp [isCachedSetter] at hset

/-- C1 (counterexample): `Viewport` is listed by the claim as one of the
cached setters, but the source issues the driver call unconditionally:
calling `Viewport` twice in a row with the same rectangle issues **two**
driver calls, and the second call does not return without a driver call. -/
theorem viewport_second_call_issues_driver_call :
    (GLS.Viewport (GLS.Viewport initialGLS 0 0 640 480).2 0 0 640 480).1 =
      [GLCall.viewport 0 0 640 480] ∧
    (GLS.Viewport initialGLS 0 0 640 480).1.length +
      (GLS.Viewport (GLS.Viewport initialGLS 0 0 640 480).2 0 0 640 480).1.length
      = 2 :=
  ⟨rfl, rfl⟩

/-- Witness for `cached_setter_second_call_elided` at `LineWidth 5` from the
freshly reset state. -/
theorem cached_setter_second_call_elided_witness :
    ((GLS.LineWidth initialGLS 5).2.LineWidth 5).1 = [] ∧
    (GLS.LineWidth initialGLS 5).1.length ≤ 1 ∧
    ((GLS.LineWidth initialGLS 5).2.LineWidth 5).2 =
      (if isCapToggle (GLSOp.lineWidth 5) then
        bumpCaphits (GLS.LineWidth initialGLS 5).2
      else (GLS.LineWidth initialGLS 5).2) :=
  cached_setter_second_call_elided initialGLS (GLSOp.lineWidth 5) (by decide)
    (GLS.LineWidth initialGLS 5) rfl
    ((GLS.LineWidth initialGLS 5).2.LineWidth 5) rfl

theorem init_activeTexture : initialGLS.activeTexture = 65535 := rfl

theorem init_blendEquation : initialGLS.blendEquation = 65535 := rfl

theorem init_blendSrc : initialGLS.blendSrc = 65535 := rfl

theorem init_blendDst : initialGLS.blendDst = 65535 := rfl

theorem init_blendEquationRGB : initialGLS.blendEquationRGB = 0 := rfl

theorem init_blendEquationAlpha : initialGLS.blendEquationAlpha = 0 := rfl

theorem init_blendSrcRGB : initialGLS.blendSrcRGB = 65535 := rfl

theorem init_blendSrcAlpha : initialGLS.blendSrcAlpha = 65535 := rfl

theorem init_blendDstRGB : initialGLS.blendDstRGB = 65535 := rfl

theorem init_blendDstAlpha : initialGLS.blendDstAlpha = 65535 := rfl

theorem init_depthFunc : initialGLS.depthFunc = 0 := rfl

theorem init_depthMask : initialGLS.depthMask = 65535 := rfl

theorem init_frontFace : initialGLS.frontFace = 0 := rfl

theorem init_lineWidth : initialGLS.lineWidth = 0 := rfl

theorem init_polygonModeFace : initialGLS.polygonModeFace = 0 := rfl

theorem init_polygonModeMode : initialGLS.polygonModeMode = 0 := rfl

theorem init_polygonOffsetFactor : initialGLS.polygonOffsetFactor = -1 := rfl

theorem init_polygonOffsetUnits : initialGLS.polygonOffsetUnits = -1 := rfl

theorem init_capabilities : initialGLS.capabilities = [] := rfl

/-- C6 (counterexample): immediately after cache construction (`reset`),
the first `LineWidth 0.0` call and the first `PolygonOffset (-1) (-1)` call
are elided — zero driver calls are issued, not exactly one — because
`reset` stores `0.0` and `(-1, -1)`, which are legal values, in those
slots rather than a sentinel distinct from every real value. -/
theorem first_linewidth_zero_elided :
    (GLS.LineWidth initialGLS 0).1 = [] ∧
    (GLS.PolygonOffset initialGLS (-1) (-1)).1 = [] := by
  constructor <;> rfl

/-- C6 (amended): immediately after cache construction (`reset`), the first
call to a cached state setter issues the underlying driver call exactly
once, **unless** the argument equals the value `reset` stored in that slot
(`resetElides`), in which case it issues none. `Enable`, `Disable` and
`DepthMask` always issue on first call; for the other setters the reset
value is `uintUndef`, `0`, `0.0` or `(-1, -1)` as listed in `resetElides`,
so a first call colliding with those values is elided. -/
theorem cold_start_first_call (op : GLSOp) (hset : isCachedSetter op = true)
    (out : List GLCall × GLS) (h : step initialGLS op = some out) :
    out.1.length = (if resetElides op then 0 else 1) := by
  cases op with
  | enable cap =>
    simp only [step, Option.some.injEq] at h
    subst h
    simp [GLS.Enable, init_capabilities, lookupD, capEnabled, resetElides]
  | disable cap =>
    simp only [step, Option.some.injEq] at h
    subst h
    simp [GLS.Disable, init_capabilities, lookupD, capDisabled, resetElides]
  | activeTexture t =>
    simp only [step, Option.some.injEq] at h
    subst h
    by_cases ht : t = 65535
    · subst ht
      simp [GLS.ActiveTexture, init_activeTexture, resetElides, uintUndef]
    · simp [GLS.ActiveTexture, init_activeTexture, resetElides, uintUndef,
        ht, Ne.symm ht]
  | blendEquation m =>
    simp only [step, Option.some.injEq] at h
    subst h
    by_cases hm : m = 65535
    · subst hm
      simp [GLS.BlendEquation, init_blendEquation, resetElides, uintUndef]
    · simp [GLS.BlendEquation, init_blendEquation, resetElides, uintUndef,
        hm, Ne.symm hm]
  | blendEquationSeparate mr ma =>
    simp only [step, Option.some.injEq] at h
    subst h
    by_cases h1 : mr = 0
    · subst h1
      by_cases h2 : ma = 0
      · subst h2
        simp [GLS.BlendEquationSeparate, init_blendEquationRGB,
          init_blendEquationAlpha, resetElides]
      · simp [GLS.BlendEquationSeparate, init_blendEquationRGB,
          init_blendEquationAlpha, resetElides, h2, Ne.symm h2]
    · simp [GLS.BlendEquationSeparate, init_blendEquationRGB,
        init_blendEquationAlpha, resetElides, h1, Ne.symm h1]
  | blendFunc s d =>
    simp only [step, Option.some.injEq] at h
    subst h
    by_cases h1 : s = 65535
    · subst h1
      by_cases h2 : d = 65535
      · subst h2
        simp [GLS.BlendFunc, init_blendSrc, init_blendDst, resetElides, uintUndef]
      · simp [GLS.BlendFunc, init_blendSrc, init_blendDst, resetElides,
          uintUndef, h2, Ne.symm h2]
    · simp [GLS.BlendFunc, init_blendSrc, init_blendDst, resetElides,
        uintUndef, h1, Ne.symm h1]
  | blendFuncSeparate sr dr sa da =>
    simp only [step, Option.some.injEq] at h
    subst h
    by_cases h1 : sr = 65535
    · subst h1
      by_cases h2 : dr = 65535
      · subst h2
        by_cases h3 : sa = 65535
        · subst h3
          by_cases h4 : da = 65535
          · subst h4
            simp [GLS.BlendFuncSeparate, init_blendSrcRGB, init_blendDstRGB,
              init_blendSrcAlpha, init_blendDstAlpha, resetElides, uintUndef]
          · simp [GLS.BlendFuncSeparate, init_blendSrcRGB, init_blendDstRGB,
              init_blendSrcAlpha, init_blendDstAlpha, resetElides, uintUndef,
              h4, Ne.symm h4]
        · simp [GLS.BlendFuncSeparate, init_blendSrcRGB, init_blendDstRGB,
            init_blendSrcAlpha, init_blendDstAlpha, resetElides, uintUndef,
            h3, Ne.symm h3]
      · simp [GLS.BlendFuncSeparate, init_blendSrcRGB, init_blendDstRGB,
          init_blendSrcAlpha, init_blendDstAlpha, resetElides, uintUndef,
          h2, Ne.symm h2]
    · simp [GLS.BlendFuncSeparate, init_blendSrcRGB, init_blendDstRGB,
        init_blendSrcAlpha, init_blendDstAlpha, resetElides, uintUndef,
        h1, Ne.symm h1]
  | depthFunc m =>
    simp only [step, Option.some.injEq] at h
    subst h
    by_cases hm : m = 0
    · subst hm
      simp [GLS.DepthFunc, init_depthFunc, resetElides]
    · simp [GLS.DepthFunc, init_depthFunc, resetElides, hm, Ne.symm hm]
  | depthMask flag =>
    simp only [step, Option.some.injEq] at h
    subst h
    cases flag <;>
      simp [GLS.DepthMask, init_depthMask, resetElides, intTrue, intFalse]
  | frontFace m =>
    simp only [step, Option.some.injEq] at h
    subst h
    by_cases hm : m = 0
    · subst hm
      simp [GLS.FrontFace, init_frontFace, resetElides]
    · simp [GLS.FrontFace, init_frontFace, resetElides, hm, Ne.symm hm]
  | lineWidth w =>
    simp only [step, Option.some.injEq] at h
    subst h
    by_cases hw : w = 0
    · subst hw
      simp [GLS.LineWidth, init_lineWidth, resetElides]
    · simp [GLS.LineWidth, init_lineWidth, resetElides, hw, Ne.symm hw]
  | polygonMode f m =>
    simp only [step, Option.some.injEq] at h
    subst h
    by_cases h1 : f = 0
    · subst h1
      by_cases h2 : m = 0
      · subst h2
        simp [GLS.PolygonMode, init_polygonModeFace, init_polygonModeMode,
          resetElides]
      · simp [GLS.PolygonMode, init_polygonModeFace, init_polygonModeMode,
          resetElides, h2, Ne.symm h2]
    · simp [GLS.PolygonMode, init_polygonModeFace, init_polygonModeMode,
        resetElides, h1, Ne.symm h1]
  | polygonOffset f u =>
    simp only [step, Option.some.injEq] at h
    subst h
    by_cases h1 : f = -1
    · subst h1
      by_cases h2 : u = -1
      · subst h2
        simp [GLS.PolygonOffset, init_polygonOffsetFactor,
          init_polygonOffsetUnits, resetElides]
      · simp [GLS.PolygonOffset, init_polygonOffsetFactor,
          init_polygonOffsetUnits, resetElides, h2, Ne.symm h2]
    · simp [GLS.PolygonOffset, init_polygonOffsetFactor,
        init_polygonOffsetUnits, resetElides, h1, Ne.symm h1]
  | viewport x y w h => simp [isCachedSetter] at hset
  | cullFace m => simp [isCachedSetter] at hset
  | clear m => simp [isCachedSetter] at hset
  | bindBuffer t v => simp [isCachedSetter] at hset
  | bindTexture t v => simp [isCachedSetter] at hset
  | bindVertexArray v => simp [isCachedSetter] at hset
  | useProgram p => simp [isCachedSetter] at hset
  | drawArrays m f c => simp [isCachedSetter] at hset
  | drawElements m c i s => simp [isCachedSetter] at hset
  | uniform1i l v => simp [isCachedSetter] at hset
  | uniform1f l v => simp [isCachedSetter] at hset
  | uniform4f l a b c d => simp [isCachedSetter] at hset
  | uniformMatrix4fv l c => simp [isCachedSetter] at hset
  | genBuffer h2 => simp [isCachedSetter] at hset
  | genTexture h2 => simp [isCachedSetter] at hset
  | genVertexArray h2 => simp [isCachedSetter] at hset
  | createProgram => simp [isCachedSetter] at hset
  | createShader s => simp [isCachedSetter] at hset
  | deleteBuffers b => simp [isCachedSetter] at hset
  | deleteTextures t => simp [isCachedSetter] at hset
  | deleteVertexArrays v => simp [isCachedSetter] at hset
  | deleteShader s => simp [isCachedSetter] at hset
  | deleteProgram p => simp [isCachedSetter] at hset

/-- Witness for `cold_start_first_call` at `LineWidth 5`: the first call
with a non-colliding value issues exactly one driver call. -/
theorem cold_start_first_call_witness :
    (GLS.LineWidth initialGLS 5).1.length =
      (if resetElides (GLSOp.lineWidth 5) then 0 else 1) :=
  cold_start_first_call (GLSOp.lineWidth 5) (by decide)
    (GLS.LineWidth initialGLS 5) rfl

/-- C8: `UseProgram` with a zero program handle fails fast (the Go `panic`,
modelled as `none` — never a normal return); with a non-zero handle it
returns normally, records the program as the cache's current program and
inserts it into the known-programs set. -/
theorem useProgram_contract (gs : GLS) (p : Program) :
    (p.handle = 0 → gs.UseProgram p = none) ∧
    (p.handle ≠ 0 → ∃ calls s, gs.UseProgram p = some (calls, s) ∧
      s.prog = some p ∧ p ∈ s.programs) := by
  constructor
  · intro h0
    simp [GLS.UseProgram, h0]
  · intro hne
    refine ⟨[GLCall.useProgram p.handle],
      { gs with prog := some p,
                programs :=
                  if p ∈ gs.programs then gs.programs else gs.programs ++ [p] },
      ?_, rfl, ?_⟩
    · simp [GLS.UseProgram, hne]
    · by_cases hmem : p ∈ gs.programs
      · simp [hmem]
      · simp [hmem]

/-- Witness for `useProgram_contract`: a zero handle panics, a non-zero
handle is recorded and registered. -/
theorem useProgram_contract_witness :
    (GLS.UseProgram initialGLS { pid := 0, handle := 0 } = none) ∧
    (∃ calls s,
      GLS.UseProgram initialGLS { pid := 1, handle := 5 } = some (calls, s) ∧
      s.prog = some { pid := 1, handle := 5 } ∧
      ({ pid := 1, handle := 5 } : Program) ∈ s.programs) :=
  ⟨(useProgram_contract initialGLS { pid := 0, handle := 0 }).1 rfl,
    (useProgram_contract initialGLS { pid := 1, handle := 5 }).2 (by decide)⟩

/-- C9 (counterexample): `DeleteProgram` does not decrement the reported
live shader-program count. From a fresh cache, after binding one program
(`handle 7`) the reported `Shaders` count is `1`; after `DeleteProgram 7`
it is still `1`, not `0`: the `Stats` method reports `len(programs)` and
no delete operation ever removes an entry from the known-programs map. -/
theorem deleteProgram_keeps_shader_count :
    Option.map (fun out => (GLS.Stats out.2).Shaders)
        (GLS.UseProgram initialGLS { pid := 0, handle := 7 }) = some 1 ∧
    Option.map (fun out => (GLS.Stats (GLS.DeleteProgram out.2 7).2).Shaders)
        (GLS.UseProgram initialGLS { pid := 0, handle := 7 }) = some 1 := by
  constructor <;> rfl

/-- C9 (amended): over any single cache operation (hence, inductively, any
sequence) the cumulative counters — `Caphits`, `UnilocHits`, `UnilocMiss`,
`Unisets`, `Drawcalls` — never decrease; the live counts `Buffers`,
`Textures` and `Vaos` are decremented by exactly the length of the
corresponding delete operation's argument list and by no other operation;
and the reported live shader-program count (the size of the known-programs
map) never decreases — in particular `DeleteProgram` does **not** decrement
it, contrary to the original claim. -/
theorem stats_counters_rules (gs : GLS) (op : GLSOp)
    (out : List GLCall × GLS) (h : step gs op = some out) :
    gs.stats.Caphits ≤ out.2.stats.Caphits ∧
    gs.stats.UnilocHits ≤ out.2.stats.UnilocHits ∧
    gs.stats.UnilocMiss ≤ out.2.stats.UnilocMiss ∧
    gs.stats.Unisets ≤ out.2.stats.Unisets ∧
    gs.stats.Drawcalls ≤ out.2.stats.Drawcalls ∧
    (∀ bufs, op = GLSOp.deleteBuffers bufs →
      out.2.stats.Buffers = gs.stats.Buffers - bufs.length) ∧
    (∀ texs, op = GLSOp.deleteTextures texs →
      out.2.stats.Textures = gs.stats.Textures - texs.length) ∧
    (∀ vaos, op = GLSOp.deleteVertexArrays vaos →
      out.2.stats.Vaos = gs.stats.Vaos - vaos.length) ∧
    ((∀ bufs, op ≠ GLSOp.deleteBuffers bufs) →
      gs.stats.Buffers ≤ out.2.stats.Buffers) ∧
    ((∀ texs, op ≠ GLSOp.deleteTextures texs) →
      gs.stats.Textures ≤ out.2.stats.Textures) ∧
    ((∀ vaos, op ≠ GLSOp.deleteVertexArrays vaos) →
      gs.stats.Vaos ≤ out.2.stats.Vaos) ∧
    gs.programs.length ≤ out.2.programs.length := by
  cases op with
  | enable cap =>
    simp only [step, Option.some.injEq] at h
    subst h
    by_cases hc : lookupD gs.capabilities cap 0 = capEnabled <;>
      simp [GLS.Enable, hc]
  | disable cap =>
    simp only [step, Option.some.injEq] at h
    subst h
    by_cases hc : lookupD gs.capabilities cap 0 = capDisabled <;>
      simp [GLS.Disable, hc]
  | activeTexture t =>
    simp only [step, Option.some.injEq] at h
    subst h
    by_cases hc : gs.activeTexture = t <;> simp [GLS.ActiveTexture, hc]
  | blendEquation m =>
    simp only [step, Option.some.injEq] at h
    subst h
    by_cases hc : gs.blendEquation = m <;> simp [GLS.BlendEquation, hc]
  | blendEquationSeparate mr ma =>
    simp only [step, Option.some.injEq] at h
    subst h
    by_cases hc : gs.blendEquationRGB = mr ∧ gs.blendEquationAlpha = ma <;>
      simp [GLS.BlendEquationSeparate, hc]
  | blendFunc s d =>
    simp only [step, Option.some.injEq] at h
    subst h
    by_cases hc : gs.blendSrc = s ∧ gs.blendDst = d <;> simp [GLS.BlendFunc, hc]
  | blendFuncSeparate sr dr sa da =>
    simp only [step, Option.some.injEq] at h
    subst h
    by_cases hc : gs.blendSrcRGB = sr ∧ gs.blendDstRGB = dr ∧
        gs.blendSrcAlpha = sa ∧ gs.blendDstAlpha = da <;>
      simp [GLS.BlendFuncSeparate, hc]
  | depthFunc m =>
    simp only [step, Option.some.injEq] at h
    subst h
    by_cases hc : gs.depthFunc = m <;> simp [GLS.DepthFunc, hc]
  | depthMask flag =>
    simp only [step, Option.some.injEq] at h
    subst h
    cases flag <;>
      [by_cases hc : gs.depthMask = 0; by_cases hc : gs.depthMask = 1] <;>
      simp [GLS.DepthMask, intTrue, intFalse, hc]
  | frontFace m =>
    simp only [step, Option.some.injEq] at h
    subst h
    by_cases hc : gs.frontFace = m <;> simp [GLS.FrontFace, hc]
  | lineWidth w =>
    simp only [step, Option.some.injEq] at h
    subst h
    by_cases hc : gs.lineWidth = w <;> simp [GLS.LineWidth, hc]
  | polygonMode f m =>
    simp only [step, Option.some.injEq] at h
    subst h
    by_cases hc : gs.polygonModeFace = f ∧ gs.polygonModeMode = m <;>
      simp [GLS.PolygonMode, hc]
  | polygonOffset f u =>
    simp only [step, Option.some.injEq] at h
    subst h
    by_cases hc : gs.polygonOffsetFactor = f ∧ gs.polygonOffsetUnits = u <;>
      simp [GLS.PolygonOffset, hc]
  | viewport x y w hh =>
    simp only [step, Option.some.injEq] at h
    subst h
    simp [GLS.Viewport]
  | cullFace m =>
    simp only [step, Option.some.injEq] at h
    subst h
    simp [GLS.CullFace]
  | clear m =>
    simp only [step, Option.some.injEq] at h
    subst h
    simp [GLS.Clear]
  | bindBuffer t v =>
    simp only [step, Option.some.injEq] at h
    subst h
    simp [GLS.BindBuffer]
  | bindTexture t v =>
    simp only [step, Option.some.injEq] at h
    subst h
    simp [GLS.BindTexture]
  | bindVertexArray v =>
    simp only [step, Option.some.injEq] at h
    subst h
    simp [GLS.BindVertexArray]
  | useProgram p =>
    simp only [step, GLS.UseProgram] at h
    by_cases h0 : p.handle = 0
    · simp [h0] at h
    · simp only [h0, if_false, if_neg h0, Option.some.injEq] at h
      subst h
      by_cases hmem : p ∈ gs.programs <;> simp [hmem]
  | drawArrays m f c =>
    simp only [step, Option.some.injEq] at h
    subst h
    simp [GLS.DrawArrays]
  | drawElements m c i s =>
    simp only [step, Option.some.injEq] at h
    subst h
    simp [GLS.DrawElements]
  | uniform1i l v =>
    simp only [step, Option.some.injEq] at h
    subst h
    simp [GLS.Uniform1i]
  | uniform1f l v =>
    simp only [step, Option.some.injEq] at h
    subst h
    simp [GLS.Uniform1f]
  | uniform4f l a b c d =>
    simp only [step, Option.some.injEq] at h
    subst h
    simp [GLS.Uniform4f]
  | uniformMatrix4fv l c =>
    simp only [step, Option.some.injEq] at h
    subst h
    simp [GLS.UniformMatrix4fv]
  | genBuffer hd =>
    simp only [step, Option.some.injEq] at h
    subst h
    simp [GLS.GenBuffer]
  | genTexture hd =>
    simp only [step, Option.some.injEq] at h
    subst h
    simp [GLS.GenTexture]
  | genVertexArray hd =>
    simp only [step, Option.some.injEq] at h
    subst h
    simp [GLS.GenVertexArray]
  | createProgram =>
    simp only [step, Option.some.injEq] at h
    subst h
    simp [GLS.CreateProgram]
  | createShader s =>
    simp only [step, Option.some.injEq] at h
    subst h
    simp [GLS.CreateShader]
  | deleteBuffers bufs =>
    simp only [step, Option.some.injEq] at h
    subst h
    have e := DeleteBuffers_effect bufs gs
    simp [e.1, e.2.1, e.2.2.1, e.2.2.2.1, e.2.2.2.2.1, e.2.2.2.2.2.1,
      e.2.2.2.2.2.2.1, e.2.2.2.2.2.2.2.1, e.2.2.2.2.2.2.2.2]
  | deleteTextures texs =>
    simp only [step, Option.some.injEq] at h
    subst h
    have e := DeleteTextures_effect texs gs
    simp [e.1, e.2.1, e.2.2.1, e.2.2.2.1, e.2.2.2.2.1, e.2.2.2.2.2.1,
      e.2.2.2.2.2.2.1, e.2.2.2.2.2.2.2.1, e.2.2.2.2.2.2.2.2]
  | deleteVertexArrays vaos =>
    simp only [step, Option.some.injEq] at h
    subst h
    have e := DeleteVertexArrays_effect vaos gs
    simp [e.1, e.2.1, e.2.2.1, e.2.2.2.1, e.2.2.2.2.1, e.2.2.2.2.2.1,
      e.2.2.2.2.2.2.1, e.2.2.2.2.2.2.2.1, e.2.2.2.2.2.2.2.2]
  | deleteShader s =>
    simp only [step, Option.some.injEq] at h
    subst h
    simp [GLS.DeleteShader]
  | deleteProgram p =>
    simp only [step, Option.some.injEq] at h
    subst h
    simp [GLS.DeleteProgram]

/-- Witness for `stats_counters_rules` at `DeleteBuffers [3, 4]` from the
freshly reset state. -/
theorem stats_counters_rules_witness :
    initialGLS.stats.Caphits ≤
      (GLS.DeleteBuffers initialGLS [3, 4]).2.stats.Caphits ∧
    initialGLS.stats.UnilocHits ≤
      (GLS.DeleteBuffers initialGLS [3, 4]).2.stats.UnilocHits ∧
    initialGLS.stats.UnilocMiss ≤
      (GLS.DeleteBuffers initialGLS [3, 4]).2.stats.UnilocMiss ∧
    initialGLS.stats.Unisets ≤
      (GLS.DeleteBuffers initialGLS [3, 4]).2.stats.Unisets ∧
    initialGLS.stats.Drawcalls ≤
      (GLS.DeleteBuffers initialGLS [3, 4]).2.stats.Drawcalls ∧
    (∀ bufs, GLSOp.deleteBuffers [3, 4] = GLSOp.deleteBuffers bufs →
      (GLS.DeleteBuffers initialGLS [3, 4]).2.stats.Buffers =
        initialGLS.stats.Buffers - bufs.length) ∧
    (∀ texs, GLSOp.deleteBuffers [3, 4] = GLSOp.deleteTextures texs →
      (GLS.DeleteBuffers initialGLS [3, 4]).2.stats.Textures =
        initialGLS.stats.Textures - texs.length) ∧
    (∀ vaos, GLSOp.deleteBuffers [3, 4] = GLSOp.deleteVertexArrays vaos →
      (GLS.DeleteBuffers initialGLS [3, 4]).2.stats.Vaos =
        initialGLS.stats.Vaos - vaos.length) ∧
    ((∀ bufs, GLSOp.deleteBuffers [3, 4] ≠ GLSOp.deleteBuffers bufs) →
      initialGLS.stats.Buffers ≤
        (GLS.DeleteBuffers initialGLS [3, 4]).2.stats.Buffers) ∧
    ((∀ texs, GLSOp.deleteBuffers [3, 4] ≠ GLSOp.deleteTextures texs) →
      initialGLS.stats.Textures ≤
        (GLS.DeleteBuffers initialGLS [3, 4]).2.stats.Textures) ∧
    ((∀ vaos, GLSOp.deleteBuffers [3, 4] ≠ GLSOp.deleteVertexArrays vaos) →
      initialGLS.stats.Vaos ≤
        (GLS.DeleteBuffers initialGLS [3, 4]).2.stats.Vaos) ∧
    initialGLS.programs.length ≤
      (GLS.DeleteBuffers initialGLS [3, 4]).2.programs.length :=
  stats_counters_rules initialGLS (GLSOp.deleteBuffers [3, 4])
    (GLS.DeleteBuffers initialGLS [3, 4]) rfl

end gls

namespace renderer

theorem totalCount_classifySelf (fc : FrameClass) (j : Nat) (k : NodeKind)
    (i : Nat) :
    totalCount (classifySelf fc j k) i =
      totalCount fc i + (if clsKind k then List.count i [j] else 0) := by
  cases k with
  | graphic g =>
    by_cases hr : g.renderable
    · by_cases hc : g.cullable
      · by_cases hf : g.inFrustum <;>
          simp [classifySelf, clsKind, hr, hc, hf, totalCount,
            List.count_append] <;> omega
      · simp [classifySelf, clsKind, hr, hc, totalCount, List.count_append]
        omega
    · simp [classifySelf, clsKind, hr, totalCount]
  | ambient =>
    simp [classifySelf, clsKind, totalCount, List.count_append]
    omega
  | directional =>
    simp [classifySelf, clsKind, totalCount, List.count_append]
    omega
  | point =>
    simp [classifySelf, clsKind, totalCount, List.count_append]
    omega
  | spot =>
    simp [classifySelf, clsKind, totalCount, List.count_append]
    omega
  | other rv =>
    simp [classifySelf, clsKind, totalCount, List.count_append]
    omega

mutual
theorem totalCount_classifyNode (t : SNode) : ∀ (fc : FrameClass) (i : Nat),
    totalCount (classifyNode fc t) i = totalCount fc i + (clsIds t).count i := by
  cases t with
  | node j vis kind ch =>
    intro fc i
    cases vis with
    | false => simp [classifyNode, clsIds]
    | true =>
      simp only [classifyNode, clsIds, if_true]
      rw [totalCount_classifyForest ch (classifySelf fc j kind) i,
        totalCount_classifySelf fc j kind i, List.count_append]
      cases hk : clsKind kind <;> simp <;> omega
theorem totalCount_classifyForest (f : SForest) :
    ∀ (fc : FrameClass) (i : Nat),
    totalCount (classifyForest fc f) i =
      totalCount fc i + (clsIdsF f).count i := by
  cases f with
  | nil => intro fc i; simp [classifyForest, clsIdsF]
  | cons c cs =>
    intro fc i
    simp only [classifyForest, clsIdsF]
    rw [totalCount_classifyForest cs (classifyNode fc c) i,
      totalCount_classifyNode c fc i, List.count_append]
    omega
end

mutual
theorem clsIds_sublist_visIds (t : SNode) : (clsIds t).Sublist (visIds t) := by
  cases t with
  | node j vis kind ch =>
    cases vis with
    | false => simp [clsIds, visIds]
    | true =>
      simp only [clsIds, visIds, if_true]
      cases hk : clsKind kind
      · simpa using List.Sublist.cons j (clsIdsF_sublist_visIdsF ch)
      · simpa using List.Sublist.cons₂ j (clsIdsF_sublist_visIdsF ch)
theorem clsIdsF_sublist_visIdsF (f : SForest) :
    (clsIdsF f).Sublist (visIdsF f) := by
  cases f with
  | nil => simp [clsIdsF, visIdsF]
  | cons c cs =>
    simp only [clsIdsF, visIdsF]
    exact List.Sublist.append (clsIds_sublist_visIds c)
      (clsIdsF_sublist_visIdsF cs)
end

mutual
theorem visIds_sublist_allIds (t : SNode) : (visIds t).Sublist (allIds t) := by
  cases t with
  | node j vis kind ch =>
    cases vis with
    | false => simp [visIds, allIds]
    | true =>
      simp only [visIds, allIds, if_true]
      exact List.Sublist.cons₂ j (visIdsF_sublist_allIdsF ch)
theorem visIdsF_sublist_allIdsF (f : SForest) :
    (visIdsF f).Sublist (allIdsF f) := by
  cases f with
  | nil => simp [visIdsF, allIdsF]
  | cons c cs =>
    simp only [visIdsF, allIdsF]
    exact List.Sublist.append (visIds_sublist_allIds c)
      (visIdsF_sublist_allIdsF cs)
end

/-- C2 (counterexample): a visible, reachable graphic node whose
`Renderable()` flag is false is appended to **none** of the classification
lists — `classifyNode` only files a graphic when it is renderable, and the
light/other branches are not reached for graphics — so not every reachable
visible node appears in exactly one list. -/
theorem nonrenderable_graphic_unclassified :
    visIds nonRenderableScene = [0] ∧
    totalCount (classifyNode emptyFC nonRenderableScene) 0 = 0 := by
  constructor
  · simp [visIds, visIdsF, nonRenderableScene]
  · simp [classifyNode, classifyForest, classifySelf, nonRenderableScene,
      totalCount, emptyFC]

/-- C2 (amended): in a scene whose node identities are distinct, after the
classification pass every node visited through visible ancestors that is a
light, an "other" node or a **renderable** graphic appears exactly once
across the seven lists (so in exactly one list); every other identity —
nodes under an invisible ancestor, invisible nodes, and visited graphics
that are not renderable — appears in none. Visited classifiable ids are
always reachable-visible ids. -/
theorem classification_partition (t : SNode) (i : Nat)
    (hnd : (allIds t).Nodup) :
    totalCount (classifyNode emptyFC t) i =
      (if i ∈ clsIds t then 1 else 0) ∧
    (i ∈ clsIds t → i ∈ visIds t) := by
  have key := totalCount_classifyNode t emptyFC i
  have h0 : totalCount emptyFC i = 0 := rfl
  have hsub : (clsIds t).Sublist (allIds t) :=
    (clsIds_sublist_visIds t).trans (visIds_sublist_allIds t)
  have hndc : (clsIds t).Nodup := hnd.sublist hsub
  refine ⟨?_, fun hm => (clsIds_sublist_visIds t).subset hm⟩
  rw [key, h0, Nat.zero_add]
  by_cases hm : i ∈ clsIds t
  · rw [if_pos hm]
    exact List.count_eq_one_of_mem hndc hm
  · rw [if_neg hm]
    exact List.count_eq_zero_of_not_mem hm

/-- Witness for `classification_partition` on `witnessScene` at the
graphic child. -/
theorem classification_partition_witness :
    totalCount (classifyNode emptyFC witnessScene) 1 =
      (if 1 ∈ clsIds witnessScene then 1 else 0) ∧
    (1 ∈ clsIds witnessScene → 1 ∈ visIds witnessScene) :=
  classification_partition witnessScene 1
    (by simp [allIds, allIdsF, witnessScene])

/-- C10: when no scene is set, `Render` returns `(false, nil)`, issues no
driver call (the event trace is empty — in particular no clear), and
records the all-zero frame stats as the previous-frame stats used by the
next frame's clear decision. -/
theorem render_nil_scene (prev : RStats) (so : Bool) :
    Render prev so none = ((false, none), zeroRStats, []) := rfl

/-- C3: with object sorting enabled, the transparent bucket at view-space
Z = -5, -1, -10 sorts back-to-front to -10, -5, -1 and the opaque bucket
front-to-back to -1, -5, -10; the user render order is the primary
ascending key in both buckets (any entry with a smaller render order
compares strictly less, for either bucket direction); and every sorted
bucket is sorted with respect to the `sort.Slice` comparator
postcondition. -/
theorem bucket_sort_order :
    ((sortGM true [gmZ (-5), gmZ (-1), gmZ (-10)]).map GrMat.viewZ =
      [-10, -5, -1]) ∧
    ((sortGM false [gmZ (-5), gmZ (-1), gmZ (-10)]).map GrMat.viewZ =
      [-1, -5, -10]) ∧
    (∀ (bf : Bool) (a b : GrMat),
      a.renderOrder < b.renderOrder → lessGM bf a b) ∧
    (∀ (bf : Bool) (l : List GrMat), List.Sorted (rleGM bf) (sortGM bf l)) := by
  refine ⟨rfl, rfl, ?_, ?_⟩
  · intro bf a b h
    unfold lessGM
    rw [if_pos (Int.ne_of_lt h)]
    exact h
  · intro bf l
    exact List.sorted_insertionSort (rleGM bf) l

/-- Witness for `bucket_sort_order`: the render-order key at a concrete
pair of entries, and sortedness of a concrete sorted bucket. -/
theorem bucket_sort_order_witness :
    lessGM true (gmZ (-5)) gmR1 ∧
    List.Sorted (rleGM true) (sortGM true [gmZ (-5), gmZ (-1)]) :=
  ⟨bucket_sort_order.2.2.1 true (gmZ (-5)) gmR1 (by decide),
    bucket_sort_order.2.2.2 true [gmZ (-5), gmZ (-1)]⟩

theorem clear_not_mem_othersEvents (fc : FrameClass) :
    REvent.clear ∉ othersEvents fc := by
  simp [othersEvents]

theorem clear_not_mem_renderGrmats (ls : List Nat) (l : List GrMat) :
    REvent.clear ∉ (renderGrmats ls l).1 := by
  induction l with
  | nil => simp [renderGrmats]
  | cons e rest ih =>
    cases he : e.mat.shaderErr with
    | some msg => simp [renderGrmats, he]
    | none => simp [renderGrmats, he, entryEvents, ih]

theorem clear_not_mem_renderBoth (ls : List Nat) (o tr : List GrMat) :
    REvent.clear ∉ (renderBoth ls o tr).1 := by
  unfold renderBoth
  cases hE : (renderGrmats ls o).2.2 with
  | some msg => simpa using clear_not_mem_renderGrmats ls o
  | none =>
    simpa using ⟨clear_not_mem_renderGrmats ls o, clear_not_mem_renderGrmats ls tr⟩

/-- C4: a frame-buffer clear is issued exactly when the current frame has
at least one opaque or transparent bucket entry or the previous frame's
recorded stats show at least one rendered graphic, and `didRender` is true
exactly when the clear was issued. In particular — rendering one graphic,
then an empty scene, then the same empty scene again — the first empty
frame clears and returns `didRender = true` while the second consecutive
empty frame issues no clear and returns `didRender = false`. -/
theorem clear_decision (prevG : Nat) (so : Bool) (t : SNode) :
    ((REvent.clear ∈ (renderScene prevG so t).events) ↔
      ((frameBuckets so t).1 ≠ [] ∨ (frameBuckets so t).2 ≠ [] ∨ 0 < prevG)) ∧
    ((renderScene prevG so t).rendered = true ↔
      REvent.clear ∈ (renderScene prevG so t).events) ∧
    ((Render (Render zeroRStats true (some sceneG)).2.1 true (some sceneE)).1 =
      (true, none) ∧
      REvent.clear ∈
        (Render (Render zeroRStats true (some sceneG)).2.1 true
          (some sceneE)).2.2) ∧
    ((Render (Render (Render zeroRStats true (some sceneG)).2.1 true
        (some sceneE)).2.1 true (some sceneE)).1 = (false, none) ∧
      REvent.clear ∉
        (Render (Render (Render zeroRStats true (some sceneG)).2.1 true
          (some sceneE)).2.1 true (some sceneE)).2.2) := by
  have hoth := clear_not_mem_othersEvents (classifyNode emptyFC t)
  have hrb := clear_not_mem_renderBoth (lightsOf (classifyNode emptyFC t))
    (frameBuckets so t).1 (frameBuckets so t).2
  have key : REvent.clear ∈ (renderScene prevG so t).events ↔
      clearNeeded prevG (frameBuckets so t).1 (frameBuckets so t).2 = true := by
    by_cases hc :
        clearNeeded prevG (frameBuckets so t).1 (frameBuckets so t).2 = true
    · simp [renderScene, hc]
    · simp only [renderScene, List.mem_append]
      simp [hc, hoth, hrb]
  refine ⟨?_, ?_, by decide, by decide⟩
  · rw [key]
    simp [clearNeeded, List.length_pos, or_assoc]
  · rw [key]
    simp [renderScene]

theorem renderGrmats_ok (ls : List Nat) (l : List GrMat)
    (h : firstFailure l = none) :
    renderGrmats ls l = (l.flatMap (entryEvents ls), l.length, none) := by
  induction l with
  | nil => simp [renderGrmats]
  | cons e rest ih =>
    cases he : e.mat.shaderErr with
    | some msg => simp [firstFailure, he] at h
    | none =>
      cases hf : firstFailure rest with
      | some p => simp [firstFailure, he, hf] at h
      | none => simp [renderGrmats, he, ih hf]

theorem renderGrmats_fail (ls : List Nat) (l : List GrMat) :
    ∀ (pre : List GrMat) (msg : String),
    firstFailure l = some (pre, msg) →
    renderGrmats ls l = (pre.flatMap (entryEvents ls), pre.length, some msg) := by
  induction l with
  | nil => intro pre msg h; simp [firstFailure] at h
  | cons e rest ih =>
    intro pre msg h
    cases he : e.mat.shaderErr with
    | some m =>
      simp [firstFailure, he] at h
      obtain ⟨h1, h2⟩ := h
      subst h1
      subst h2
      simp [renderGrmats, he]
    | none =>
      cases hf : firstFailure rest with
      | some p =>
        simp [firstFailure, he, hf] at h
        obtain ⟨h1, h2⟩ := h
        subst h1
        subst h2
        simp [renderGrmats, he, ih p.1 p.2 (by rw [hf])]
      | none => simp [firstFailure, he, hf] at h

theorem firstFailure_append (o tr : List GrMat) :
    firstFailure (o ++ tr) =
      match firstFailure o with
      | some p => some p
      | none =>
        match firstFailure tr with
        | some p => some (o ++ p.1, p.2)
        | none => none := by
  induction o with
  | nil =>
    cases hf : firstFailure tr with
    | some p => simp [firstFailure, hf]
    | none => simp [firstFailure, hf]
  | cons e rest ih =>
    cases he : e.mat.shaderErr with
    | some m => simp [firstFailure, he]
    | none =>
      cases hr : firstFailure rest with
      | some p =>
        simp [firstFailure, he, hr, List.cons_append] at ih ⊢
        rw [ih]
      | none =>
        cases hf : firstFailure tr with
        | some p =>
          simp [firstFailure, he, hr, hf, List.cons_append] at ih ⊢
          rw [ih]
        | none =>
          simp [firstFailure, he, hr, hf, List.cons_append] at ih ⊢
          rw [ih]

theorem renderBoth_ok (ls : List Nat) (o tr : List GrMat)
    (h : firstFailure (o ++ tr) = none) :
    renderBoth ls o tr =
      ((o ++ tr).flatMap (entryEvents ls), (o ++ tr).length, none) := by
  rw [firstFailure_append] at h
  cases hO : firstFailure o with
  | some p => rw [hO] at h; simp at h
  | none =>
    rw [hO] at h
    cases hT : firstFailure tr with
    | some p => rw [hT] at h; simp at h
    | none =>
      unfold renderBoth
      rw [renderGrmats_ok ls o hO, renderGrmats_ok ls tr hT]
      simp [List.flatMap_append]

theorem renderBoth_fail (ls : List Nat) (o tr : List GrMat)
    (pre : List GrMat) (msg : String)
    (h : firstFailure (o ++ tr) = some (pre, msg)) :
    renderBoth ls o tr =
      (pre.flatMap (entryEvents ls), pre.length, some msg) := by
  rw [firstFailure_append] at h
  cases hO : firstFailure o with
  | some p =>
    rw [hO] at h
    simp at h
    subst h
    unfold renderBoth
    rw [renderGrmats_fail ls o pre msg hO]
  | none =>
    rw [hO] at h
    cases hT : firstFailure tr with
    | some p =>
      rw [hT] at h
      simp at h
      obtain ⟨h1, h2⟩ := h
      subst h1
      subst h2
      unfold renderBoth
      rw [renderGrmats_ok ls o hO,
        renderGrmats_fail ls tr p.1 p.2 (by rw [hT])]
      simp [List.flatMap_append, List.length_append]
    | none => rw [hT] at h; simp at h

theorem filterMap_drawOf_entryEvents (ls : List Nat) (e : GrMat) :
    (entryEvents ls e).filterMap drawOf = [e.mat.mid] := by
  induction ls with
  | nil => simp [entryEvents, drawOf]
  | cons x xs ih => simp [entryEvents, drawOf]

theorem filterMap_otherOf_entryEvents (ls : List Nat) (e : GrMat) :
    (entryEvents ls e).filterMap otherOf = [] := by
  induction ls with
  | nil => simp [entryEvents, otherOf]
  | cons x xs ih => simp [entryEvents, otherOf]

theorem filterMap_drawOf_flatMap (ls : List Nat) (l : List GrMat) :
    (l.flatMap (entryEvents ls)).filterMap drawOf =
      l.map (fun e => e.mat.mid) := by
  induction l with
  | nil => simp
  | cons e rest ih =>
    simp [List.flatMap_cons, List.filterMap_append,
      filterMap_drawOf_entryEvents, ih]

theorem filterMap_otherOf_flatMap (ls : List Nat) (l : List GrMat) :
    (l.flatMap (entryEvents ls)).filterMap otherOf = [] := by
  induction l with
  | nil => simp
  | cons e rest ih =>
    simp [List.flatMap_cons, List.filterMap_append,
      filterMap_otherOf_entryEvents, ih]

theorem filterMap_drawOf_othersEvents (fc : FrameClass) :
    (othersEvents fc).filterMap drawOf = [] := by
  simp [othersEvents, List.filterMap_map, drawOf, Function.comp]

theorem filterMap_otherOf_map_otherRender (l : List (Nat × Bool)) :
    (l.map (fun o => REvent.otherRender o.1)).filterMap otherOf =
      l.map Prod.fst := by
  induction l with
  | nil => rfl
  | cons x xs ih => simp [otherOf, ih]

theorem filterMap_otherOf_othersEvents (fc : FrameClass) :
    (othersEvents fc).filterMap otherOf =
      (fc.others.filter (fun o => o.2)).map Prod.fst := by
  unfold othersEvents
  exact filterMap_otherOf_map_otherRender _

/-- C5: in a frame whose shader resolutions all succeed, the submitted
draws are exactly the opaque bucket's entries in sorted order followed by
the transparent bucket's entries in sorted order (never interleaved, every
opaque draw before every transparent draw); the "other" render hooks run
in classification-list order, skipping entries invisible at their turn;
and the trace splits into a draw-free prefix containing the other hooks
followed by a hook-free remainder containing the draws — every other hook
precedes every draw. -/
theorem submission_order (prevG : Nat) (so : Bool) (t : SNode)
    (hok : (renderScene prevG so t).err = none) :
    ((renderScene prevG so t).events.filterMap drawOf =
      ((frameBuckets so t).1.map (fun e => e.mat.mid)) ++
        ((frameBuckets so t).2.map (fun e => e.mat.mid))) ∧
    ((renderScene prevG so t).events.filterMap otherOf =
      ((classifyNode emptyFC t).others.filter (fun o => o.2)).map Prod.fst) ∧
    (∃ a b, (renderScene prevG so t).events = a ++ b ∧
      (∀ e ∈ a, drawOf e = none) ∧ (∀ e ∈ b, otherOf e = none)) := by
  have herr : firstFailure ((frameBuckets so t).1 ++ (frameBuckets so t).2) =
      none := by
    cases hF : firstFailure ((frameBuckets so t).1 ++ (frameBuckets so t).2) with
    | none => rfl
    | some p =>
      have := renderBoth_fail (lightsOf (classifyNode emptyFC t))
        (frameBuckets so t).1 (frameBuckets so t).2 p.1 p.2 (by rw [hF])
      simp [renderScene, this] at hok
  have hrb := renderBoth_ok (lightsOf (classifyNode emptyFC t))
    (frameBuckets so t).1 (frameBuckets so t).2 herr
  refine ⟨?_, ?_, ?_⟩
  · simp [renderScene, hrb, List.filterMap_append,
      filterMap_drawOf_othersEvents, filterMap_drawOf_flatMap, drawOf]
  · simp [renderScene, hrb, List.filterMap_append,
      filterMap_otherOf_othersEvents, filterMap_otherOf_flatMap, otherOf]
  · refine ⟨othersEvents (classifyNode emptyFC t),
      (if clearNeeded prevG (frameBuckets so t).1 (frameBuckets so t).2 then
        [REvent.clear] else []) ++
        (renderBoth (lightsOf (classifyNode emptyFC t)) (frameBuckets so t).1
          (frameBuckets so t).2).1,
      by simp [renderScene], ?_, ?_⟩
    · intro e he
      simp [othersEvents] at he
      obtain ⟨x, hx, rfl⟩ := he
      rfl
    · intro e he
      rw [List.mem_append] at he
      rcases he with he | he
      · have hce : e = REvent.clear := by
          by_cases hc : clearNeeded prevG (frameBuckets so t).1
              (frameBuckets so t).2 = true
          · rw [if_pos hc] at he
            simpa using he
          · rw [if_neg hc] at he
            simp at he
        subst hce
        rfl
      · rw [hrb] at he
        simp only at he
        by_cases hn : otherOf e = none
        · exact hn
        · exfalso
          rcases Option.ne_none_iff_exists'.mp hn with ⟨v, hv⟩
          have hm : v ∈ List.filterMap otherOf
              (((frameBuckets so t).1 ++ (frameBuckets so t).2).flatMap
                (entryEvents (lightsOf (classifyNode emptyFC t)))) :=
            List.mem_filterMap.mpr ⟨e, he, hv⟩
          rw [filterMap_otherOf_flatMap] at hm
          exact (List.not_mem_nil v) hm

/-- Witness for `submission_order` on `sceneC5`. -/
theorem submission_order_witness :
    ((renderScene 0 true sceneC5).events.filterMap drawOf =
      ((frameBuckets true sceneC5).1.map (fun e => e.mat.mid)) ++
        ((frameBuckets true sceneC5).2.map (fun e => e.mat.mid))) ∧
    ((renderScene 0 true sceneC5).events.filterMap otherOf =
      ((classifyNode emptyFC sceneC5).others.filter (fun o => o.2)).map
        Prod.fst) ∧
    (∃ a b, (renderScene 0 true sceneC5).events = a ++ b ∧
      (∀ e ∈ a, drawOf e = none) ∧ (∀ e ∈ b, otherOf e = none)) :=
  submission_order 0 true sceneC5 rfl

/-- C7: when shader resolution fails for some bucket entry (`pre` is the
run of successfully resolved entries processed before the first failing
one, across the opaque bucket followed by the transparent bucket), the
frame's error is exactly that entry's error; the trace contains the other
hooks, the clear (when due) and the draws of the `pre` entries only — no
later entry of the failing bucket nor any entry of the following bucket is
rendered, and the already-submitted draws stay in the trace (no rollback);
and `Render` returns the error unchanged, leaving the previous-frame stats
untouched. -/
theorem shader_error_aborts_frame (prev : RStats) (so : Bool) (t : SNode)
    (pre : List GrMat) (msg : String)
    (hfail : firstFailure ((frameBuckets so t).1 ++ (frameBuckets so t).2) =
      some (pre, msg)) :
    (renderScene prev.Graphics so t).err = some msg ∧
    (renderScene prev.Graphics so t).events =
      othersEvents (classifyNode emptyFC t) ++
        (if clearNeeded prev.Graphics (frameBuckets so t).1
            (frameBuckets so t).2 then [REvent.clear] else []) ++
        pre.flatMap (entryEvents (lightsOf (classifyNode emptyFC t))) ∧
    Render prev so (some t) =
      (((renderScene prev.Graphics so t).rendered, some msg), prev,
        (renderScene prev.Graphics so t).events) := by
  have hrb := renderBoth_fail (lightsOf (classifyNode emptyFC t))
    (frameBuckets so t).1 (frameBuckets so t).2 pre msg hfail
  have herr : (renderScene prev.Graphics so t).err = some msg := by
    simp [renderScene, hrb]
  refine ⟨herr, ?_, ?_⟩
  · simp [renderScene, hrb, List.append_assoc]
  · simp only [Render]
    rw [herr]

/-- Witness for `shader_error_aborts_frame` on `sceneC7`: the first entry
is drawn, the frame aborts with "boom", and `Render` propagates it. -/
theorem shader_error_aborts_frame_witness :
    (renderScene zeroRStats.Graphics true sceneC7).err = some "boom" ∧
    (renderScene zeroRStats.Graphics true sceneC7).events =
      othersEvents (classifyNode emptyFC sceneC7) ++
        (if clearNeeded zeroRStats.Graphics (frameBuckets true sceneC7).1
            (frameBuckets true sceneC7).2 then [REvent.clear] else []) ++
        [okEntryC7].flatMap
          (entryEvents (lightsOf (classifyNode emptyFC sceneC7))) ∧
    Render zeroRStats true (some sceneC7) =
      (((renderScene zeroRStats.Graphics true sceneC7).rendered, some "boom"),
        zeroRStats, (renderScene zeroRStats.Graphics true sceneC7).events) :=
  shader_error_aborts_frame zeroRStats true sceneC7 [okEntryC7] "boom" rfl

end renderer
